import Mathlib

/-!
# protoc-gen-gogorpcx: the rpcx generator plugin (`rpcx/rpcx.go`)

A shallow embedding of the plugin. Go strings are sequences of bytes; the host
generator (`generator.Generator` of gogo/protobuf) is a record of what the plugin
asks of it: text appended to the output buffer, imports added, type uses recorded.
-/

namespace Rpcx

/-! ## Go strings -/

/-- A Go `byte` (uint8). -/
abbrev Byte := Fin 256

/-- A Go `string`: an immutable sequence of bytes. -/
abbrev GoString := List Byte

/-- Go's conversion `byte(n)`: the low eight bits of `n`. -/
def byte (n : Nat) : Byte := ⟨n % 256, Nat.mod_lt n (by decide)⟩

/-- Go's `string(rune)` conversion, i.e. `utf8.AppendRune`: the UTF-8 encoding of the code
point `r`; surrogates and values above U+10FFFF encode as U+FFFD. -/
def encodeRune (r : Nat) : GoString :=
  if r < 0x80 then [byte r]
  else if r < 0x800 then [byte (0xC0 + r / 64), byte (0x80 + r % 64)]
  else if 0xD800 ≤ r ∧ r < 0xE000 then [byte 0xEF, byte 0xBF, byte 0xBD]
  else if r < 0x10000 then
    [byte (0xE0 + r / 4096), byte (0x80 + r / 64 % 64), byte (0x80 + r % 64)]
  else if r < 0x110000 then
    [byte (0xF0 + r / 262144), byte (0x80 + r / 4096 % 64), byte (0x80 + r / 64 % 64),
      byte (0x80 + r % 64)]
  else [byte 0xEF, byte 0xBF, byte 0xBD]

/-- A string literal of the Go source, as the bytes of its UTF-8 encoding. -/
def lit (s : String) : GoString := s.toList.flatMap (fun c => encodeRune c.toNat)

/-- Go's `unicode.ToUpper` on the code points below U+0100 (the only ones a single byte
converts to): ASCII letters, and the Latin-1 rows of the `CaseRanges` table. -/
def unicodeToUpper (r : Nat) : Nat :=
  if 0x61 ≤ r ∧ r ≤ 0x7A then r - 32
  else if r = 0xB5 then 0x39C
  else if 0xE0 ≤ r ∧ r ≤ 0xF6 then r - 32
  else if 0xF8 ≤ r ∧ r ≤ 0xFE then r - 32
  else if r = 0xFF then 0x178
  else r

/-- The expression `strings.ToUpper(string(b))` for a byte `b`: `string(b)` is the
one-rune string holding code point `b`, and `strings.ToUpper` maps that rune through
`unicode.ToUpper` and encodes the result. -/
def toUpperOfByte (b : Byte) : GoString := encodeRune (unicodeToUpper b.val)

/-- Source: `upperFirstLatter` (rpcx.go, lines 161-169). -/
def upperFirstLatter (s : GoString) : GoString :=
  match s with
  | [] => []
  | [b] => toUpperOfByte b
  | b :: rest => toUpperOfByte b ++ rest

/-! ## `fmt.Sprintf` -/

/-- Where the scan of a format string stands: in plain text, just after `%`, inside the
brackets of an explicit argument index (with the digits read so far), or after the closing
bracket (with the one-based index read). -/
inductive FmtState where
  | text
  | verb
  | index (n : Nat)
  | indexed (n : Nat)

/-- The tail `fmt.Sprintf` appends when operands are left over and no explicit argument
index was used; every operand here is a string. -/
def extraArgs (rest : List GoString) : GoString :=
  lit "%!(EXTRA " ++ List.intercalate (lit ", ") (rest.map (fun a => lit "string=" ++ a)) ++
    lit ")"

/-- The scanning loop of `fmt.Sprintf` (`doPrintf`) on string operands, for the directives
the plugin's formats are written with: plain text, `%%`, `%s` and `%[n]s`, with Go's
`%!s(MISSING)`, `%!s(BADINDEX)`, `%!(NOVERB)` and `%!(EXTRA ...)` outcomes. Flags, widths and
other verbs are outside this fragment: the scan stops at one. -/
def sprintfLoop (args : List GoString) : FmtState → Nat → Bool → GoString → GoString
  | .text, argNum, reordered, [] =>
    if reordered = false ∧ argNum < args.length then extraArgs (args.drop argNum) else []
  | .text, argNum, reordered, c :: fmt =>
    if c.val = 37 then sprintfLoop args .verb argNum reordered fmt
    else c :: sprintfLoop args .text argNum reordered fmt
  | .verb, _, _, [] => lit "%!(NOVERB)"
  | .verb, argNum, reordered, c :: fmt =>
    if c.val = 37 then c :: sprintfLoop args .text argNum reordered fmt
    else if c.val = 91 then sprintfLoop args (.index 0) argNum true fmt
    else if c.val = 115 then
      match args.get? argNum with
      | some a => a ++ sprintfLoop args .text (argNum + 1) reordered fmt
      | none => lit "%!s(MISSING)" ++ sprintfLoop args .text argNum reordered fmt
    else []
  | .index _, _, _, [] => []
  | .index n, argNum, reordered, c :: fmt =>
    if 48 ≤ c.val ∧ c.val ≤ 57 then
      sprintfLoop args (.index (10 * n + (c.val - 48))) argNum reordered fmt
    else if c.val = 93 then sprintfLoop args (.indexed n) argNum reordered fmt
    else []
  | .indexed _, _, _, [] => lit "%!(NOVERB)"
  | .indexed n, argNum, reordered, c :: fmt =>
    if c.val = 115 then
      match args.get? (n - 1) with
      | some a =>
        if n = 0 then lit "%!s(BADINDEX)" ++ sprintfLoop args .text argNum reordered fmt
        else a ++ sprintfLoop args .text n reordered fmt
      | none => lit "%!s(BADINDEX)" ++ sprintfLoop args .text argNum reordered fmt
    else []

/-- Go's `fmt.Sprintf(format, args...)` with string operands. -/
def Sprintf (format : GoString) (args : List GoString) : GoString :=
  sprintfLoop args .text 0 false format

/-! ## Descriptors (package `descriptor` of gogo/protobuf) -/

/-- Modelled from the spec: a method descriptor (`descriptor.MethodDescriptorProto`), "a
name, an input type reference, an output type reference"; the fields are optional, as
proto2 string pointers are. -/
structure MethodDescriptorProto where
  Name : Option GoString
  InputType : Option GoString
  OutputType : Option GoString
  deriving DecidableEq

/-- Modelled from the spec: a service descriptor (`descriptor.ServiceDescriptorProto`), "a
name and an ordered sequence of Method Descriptors". -/
structure ServiceDescriptorProto where
  Name : Option GoString
  Method : List MethodDescriptorProto
  deriving DecidableEq

/-- Modelled from the spec: the file descriptor message
(`descriptor.FileDescriptorProto`), "a named file containing an ordered sequence of Service
Descriptors". -/
structure FileDescriptorProto where
  Name : Option GoString
  Service : List ServiceDescriptorProto
  deriving DecidableEq

/-- Modelled from the spec: the host's wrapper of a file descriptor
(`generator.FileDescriptor`), which embeds the descriptor message. -/
structure FileDescriptor where
  FileDescriptorProto : FileDescriptorProto
  deriving DecidableEq

/-- The generated getter `GetName`: the name, or the empty string when it is unset. -/
def MethodDescriptorProto.GetName (m : MethodDescriptorProto) : GoString := m.Name.getD []

/-- The generated getter `GetInputType`. -/
def MethodDescriptorProto.GetInputType (m : MethodDescriptorProto) : GoString :=
  m.InputType.getD []

/-- The generated getter `GetOutputType`. -/
def MethodDescriptorProto.GetOutputType (m : MethodDescriptorProto) : GoString :=
  m.OutputType.getD []

/-- The generated getter `GetName` of a service. -/
def ServiceDescriptorProto.GetName (s : ServiceDescriptorProto) : GoString := s.Name.getD []

/-- The getter `GetName` of a file, promoted from the embedded descriptor message. -/
def FileDescriptor.GetName (f : FileDescriptor) : GoString := f.FileDescriptorProto.Name.getD []

/-! ## The host generator -/

/-- Modelled from the spec: an object of the host's symbol table (`generator.Object`), known
to the plugin only through the type name the host prints for it. -/
structure Object where
  printed : GoString
  deriving DecidableEq

/-- Modelled from the spec: a call the plugin makes on the host generator: `P` (append text
to the output buffer), `AddImport` (declare an import) or `RecordTypeUse` (import
tracking). -/
inductive Call where
  | P (str : List GoString)
  | AddImport (importPath : GoString)
  | RecordTypeUse (t : GoString)
  deriving DecidableEq

/-- Modelled from the spec: the host generator context (`generator.Generator`), as far as the
plugin touches it: the symbol table resolving type references, and the calls received so
far, in order. The output buffer and the import-tracking state are append-only, so they are
functions of that sequence (`Buffer`, `addedImports`, `usedTypes`). -/
structure Generator where
  typeNameToObject : GoString → Option Object
  calls : List Call

/-- Modelled from the spec: what a call appends to the output buffer: for `P`, the operands
and then a newline; for the other calls, nothing. -/
def Call.text : Call → GoString
  | .P str => str.flatten ++ lit "\n"
  | .AddImport _ => []
  | .RecordTypeUse _ => []

/-- The import a call declares, if it is an `AddImport`. -/
def Call.import? : Call → Option GoString
  | .AddImport importPath => some importPath
  | _ => none

/-- The type name a call records, if it is a `RecordTypeUse`. -/
def Call.typeUse? : Call → Option GoString
  | .RecordTypeUse t => some t
  | _ => none

/-- The text of a sequence of calls. -/
def textOf (cs : List Call) : GoString := cs.flatMap Call.text

/-- Modelled from the spec: the host's output buffer. -/
def Generator.Buffer (g : Generator) : GoString := textOf g.calls

/-- Modelled from the spec: the imports declared with the host, in order. -/
def Generator.addedImports (g : Generator) : List GoString := g.calls.filterMap Call.import?

/-- Modelled from the spec: the type names recorded as used, in order. -/
def Generator.usedTypes (g : Generator) : List GoString := g.calls.filterMap Call.typeUse?

/-- Modelled from the spec: the host's output-append API `P`. -/
def Generator.P (g : Generator) (str : List GoString) : Generator :=
  { g with calls := g.calls ++ [Call.P str] }

/-- Modelled from the spec: the host's import registration `AddImport`. -/
def Generator.AddImport (g : Generator) (importPath : GoString) : Generator :=
  { g with calls := g.calls ++ [Call.AddImport importPath] }

/-- Modelled from the spec: the host's import tracking `RecordTypeUse`. -/
def Generator.RecordTypeUse (g : Generator) (t : GoString) : Generator :=
  { g with calls := g.calls ++ [Call.RecordTypeUse t] }

/-- Modelled from the spec: the host's symbol resolution `ObjectNamed`; an unknown name makes
the host abort the process, which is `none` here. -/
def Generator.ObjectNamed (g : Generator) (typeName : GoString) : Option Object :=
  g.typeNameToObject typeName

/-- Modelled from the spec: the host's `TypeName`, the name of an object as printed. -/
def Generator.TypeName (_g : Generator) (obj : Object) : GoString := obj.printed

/-! ## The plugin -/

/-- Source: constant `rpcxServerPkgPath`. -/
def rpcxServerPkgPath : GoString := lit "github.com/smallnest/rpcx/v5/server"

/-- Source: constant `rpcxClientPkgPath`. -/
def rpcxClientPkgPath : GoString := lit "github.com/smallnest/rpcx/v5/client"

/-- Source: constant `rpcxProtocolPkgPath`. -/
def rpcxProtocolPkgPath : GoString := lit "github.com/smallnest/rpcx/v5/protocol"

/-- Source: `(*rpcx).objectNamed`: records the use of the name, then resolves it. -/
def objectNamed (name : GoString) (g : Generator) : Option (Object × Generator) :=
  let g := g.RecordTypeUse name
  match g.ObjectNamed name with
  | some obj => some (obj, g)
  | none => none

/-- Source: `(*rpcx).typeName`: the name of a type as it will be printed. -/
def typeName (str : GoString) (g : Generator) : Option (GoString × Generator) :=
  match objectNamed str g with
  | some (obj, g) => some (g.TypeName obj, g)
  | none => none

/-- Source: `(*rpcx).P`, which forwards to the host's `P`. -/
def P (str : List GoString) (g : Generator) : Generator := g.P str

/-- Source: `(*rpcx).generateServerCode`. -/
def generateServerCode (_service : ServiceDescriptorProto) (method : MethodDescriptorProto)
    (g : Generator) : Option Generator :=
  let methodName := upperFirstLatter method.GetName
  match typeName method.GetInputType g with
  | none => none
  | some (inType, g) =>
    match typeName method.GetOutputType g with
    | none => none
    | some (outType, g) =>
      some (P [Sprintf (lit "// %s is server rpc method as defined\n\t\t%s(ctx context.Context, args *%s, reply *%s) error\n\t")
        [methodName, methodName, inType, outType]] g)

/-- Source: `(*rpcx).generateClientCode`. -/
def generateClientCode (service : ServiceDescriptorProto) (method : MethodDescriptorProto)
    (g : Generator) : Option Generator :=
  let methodName := upperFirstLatter method.GetName
  let serviceName := upperFirstLatter service.GetName
  match typeName method.GetInputType g with
  | none => none
  | some (inType, g) =>
    match typeName method.GetOutputType g with
    | none => none
    | some (outType, g) =>
      some (P [Sprintf (lit "// %[2]s is client rpc method as defined\n\t\tfunc (c *%[1]sClient) %[2]s(ctx context.Context, args *%[3]s) (reply *%[4]s, err error) \x7b\n\t\t\treply = &%[4]s\x7b\x7d\n\t\t\terr = c.xclient.Call(ctx, \"%[5]s\", args, reply)\n\t\t\treturn reply, err\n\t\t\x7d\n\t\t\n\t\t// %[2]sGo is client rpc method as defined\n\t\tfunc (c *%[1]sClient) %[2]sGo(ctx context.Context, args *%[3]s, done chan *client.Call) (call *client.Call, err error) \x7b\n\t\t\treturn c.xclient.Go(ctx, \"%[5]s\", args, &%[4]s\x7b\x7d, done)\n\t\t\x7d\n\t")
        [serviceName, methodName, inType, outType, method.GetName]] g)

/-- Source: the first closure of `generateService` (lines 90-95): the `_ = impl.X`
references of the registration function. -/
def implRefs (service : ServiceDescriptorProto) : GoString :=
  service.Method.foldl
    (fun methods method =>
      methods ++ Sprintf (lit "\n_ = impl.%s") [upperFirstLatter method.GetName]) []

/-- Source: the second closure of `generateService` (lines 116-121): the fields of the
method-name struct. -/
def methodFields (service : ServiceDescriptorProto) : GoString :=
  service.Method.foldl
    (fun methods method =>
      methods ++ Sprintf (lit "\n%s string") [upperFirstLatter method.GetName]) []

/-- Source: the third closure of `generateService` (lines 121-126): the entries of the
method-name table initialiser. -/
def methodEntries (service : ServiceDescriptorProto) : GoString :=
  service.Method.foldl
    (fun methods method =>
      methods ++ Sprintf (lit "\n%s: \"%s\",") [upperFirstLatter method.GetName, method.GetName])
    []

/-- Source: the loop `for _, method := range service.Method` over a generation step that can
abort. -/
def forMethods (step : MethodDescriptorProto → Generator → Option Generator) :
    List MethodDescriptorProto → Generator → Option Generator
  | [], g => some g
  | method :: rest, g =>
    match step method g with
    | none => none
    | some g => forMethods step rest g

/-- Source: `(*rpcx).generateService`. -/
def generateService (file : FileDescriptor) (service : ServiceDescriptorProto) (_index : Nat)
    (g : Generator) : Option Generator :=
  let originServiceName := service.GetName
  let serviceName := upperFirstLatter originServiceName
  let g := P [lit "// This following code was generated by rpcx"] g
  let g := P [Sprintf (lit "// Gernerated from %s") [file.GetName]] g
  let g := P [] g
  let g := P [lit "//================== server skeleton==================="] g
  let g := P [Sprintf (lit "type %s interface \x7b") [serviceName]] g
  match forMethods (generateServerCode service) service.Method g with
  | none => none
  | some g =>
    let g := P [Sprintf (lit "\x7d\n\n\t\t// RegisterFor%[1]s register the '%[1]s' service to a server.\n\t\t// And will check all methods of '%[1]s' which must be implemented.\n\t\tfunc RegisterFor%[1]s(s *server.Server, meta string) error \x7b\n\t\t\timpl := new(%[1]sImpl)%[2]s\n\t\t\treturn s.RegisterName(\"%[1]s\", impl, meta)\n\t\t\x7d\n\t")
      [serviceName, implRefs service]] g
    let g := P [] g
    let g := P [] g
    let g := P [lit "//================== client stub==================="] g
    let g := P [Sprintf (lit "// %[1]s is a client wrapped XClient.\n\t\ttype %[1]sClient struct \x7b\n\t\t\txclient client.XClient\n\t\t\tfx %[1]sMethods\n\t\t\x7d\n\n\t\ttype %[1]sMethods struct \x7b%[2]s\x7d\n\n\t\t// Make%[1]sClient wraps a XClient as %[1]sClient.\n\t\t// You can pass a shared XClient object created by anywhere.\n\t\tfunc Make%[1]sClient(xclient client.XClient) *%[1]sClient \x7b\n\t\t\treturn &%[1]sClient\x7b\n\t\t\t\txclient: xclient,\n\t\t\t\tfx: UserMethods \x7b%[3]s\n\t\t\t\t\x7d,\n\t\t\t\x7d\n\t\t\x7d\n\t")
      [serviceName, methodFields service, methodEntries service]] g
    forMethods (generateClientCode service) service.Method g

/-- Source: the loop `for i, service := range file.FileDescriptorProto.Service` of
`Generate`, from index `i` on. -/
def forServices (file : FileDescriptor) :
    Nat → List ServiceDescriptorProto → Generator → Option Generator
  | _, [], g => some g
  | i, service :: rest, g =>
    match generateService file service i g with
    | none => none
    | some g => forServices file (i + 1) rest g

/-- Source: `(*rpcx).Generate`. -/
def Generate (file : FileDescriptor) (g : Generator) : Option Generator :=
  if file.FileDescriptorProto.Service.length = 0 then some g
  else
    let g := g.AddImport rpcxServerPkgPath
    let g := g.AddImport rpcxClientPkgPath
    let g := g.AddImport rpcxProtocolPkgPath
    let g := g.AddImport (lit "context")
    forServices file 0 file.FileDescriptorProto.Service g

/-! ## What a run prints, in closed form -/

/-- The text `generateServerCode` prints: its
format with the operands substituted. -/
def serverCodeText (methodName inType outType : GoString) : GoString :=
  lit "// " ++ methodName ++ lit " is server rpc method as defined\n\t\t" ++ methodName ++
    lit "(ctx context.Context, args *" ++ inType ++ lit ", reply *" ++ outType ++
    lit ") error\n\t"

/-- The text `generateClientCode` prints: its
format with the operands substituted. -/
def clientCodeText (serviceName methodName inType outType wireName : GoString) : GoString :=
  lit "// " ++ methodName ++ lit " is client rpc method as defined\n\t\tfunc (c *" ++
    serviceName ++ lit "Client) " ++ methodName ++ lit "(ctx context.Context, args *" ++
    inType ++ lit ") (reply *" ++ outType ++ lit ", err error) \x7b\n\t\t\treply = &" ++
    outType ++ lit "\x7b\x7d\n\t\t\terr = c.xclient.Call(ctx, \"" ++ wireName ++
    lit "\", args, reply)\n\t\t\treturn reply, err\n\t\t\x7d\n\t\t\n\t\t// " ++ methodName ++
    lit "Go is client rpc method as defined\n\t\tfunc (c *" ++ serviceName ++ lit "Client) " ++
    methodName ++ lit "Go(ctx context.Context, args *" ++ inType ++
    lit ", done chan *client.Call) (call *client.Call, err error) \x7b\n\t\t\treturn c.xclient.Go(ctx, \"" ++
    wireName ++ lit "\", args, &" ++ outType ++ lit "\x7b\x7d, done)\n\t\t\x7d\n\t"

/-- The text `generateService` prints to close the interface and register the service: its
format with the operands substituted. -/
def registerText (serviceName refs : GoString) : GoString :=
  lit "\x7d\n\n\t\t// RegisterFor" ++ serviceName ++ lit " register the '" ++ serviceName ++
    lit "' service to a server.\n\t\t// And will check all methods of '" ++ serviceName ++
    lit "' which must be implemented.\n\t\tfunc RegisterFor" ++ serviceName ++
    lit "(s *server.Server, meta string) error \x7b\n\t\t\timpl := new(" ++ serviceName ++
    lit "Impl)" ++ refs ++ lit "\n\t\t\treturn s.RegisterName(\"" ++ serviceName ++
    lit "\", impl, meta)\n\t\t\x7d\n\t"

/-- The text `generateService` prints for the client struct, the method-name struct and the constructor: its
format with the operands substituted. -/
def clientStubText (serviceName fields entries : GoString) : GoString :=
  lit "// " ++ serviceName ++ lit " is a client wrapped XClient.\n\t\ttype " ++ serviceName ++
    lit "Client struct \x7b\n\t\t\txclient client.XClient\n\t\t\tfx " ++ serviceName ++
    lit "Methods\n\t\t\x7d\n\n\t\ttype " ++ serviceName ++ lit "Methods struct \x7b" ++
    fields ++ lit "\x7d\n\n\t\t// Make" ++ serviceName ++ lit "Client wraps a XClient as " ++
    serviceName ++
    lit "Client.\n\t\t// You can pass a shared XClient object created by anywhere.\n\t\tfunc Make" ++
    serviceName ++ lit "Client(xclient client.XClient) *" ++ serviceName ++
    lit "Client \x7b\n\t\t\treturn &" ++ serviceName ++
    lit "Client\x7b\n\t\t\t\txclient: xclient,\n\t\t\t\tfx: UserMethods \x7b" ++ entries ++
    lit "\n\t\t\t\t\x7d,\n\t\t\t\x7d\n\t\t\x7d\n\t"

/-- The `_ = impl.X` reference of one method. -/
def implRefText (method : MethodDescriptorProto) : GoString :=
  lit "\n_ = impl." ++ upperFirstLatter method.GetName

/-- The field of the method-name struct for one method. -/
def fieldText (method : MethodDescriptorProto) : GoString :=
  lit "\n" ++ upperFirstLatter method.GetName ++ lit " string"

/-- The entry of the method-name table initialiser for one method. -/
def entryText (method : MethodDescriptorProto) : GoString :=
  lit "\n" ++ upperFirstLatter method.GetName ++ lit ": \"" ++ method.GetName ++ lit "\","

/-- The type name the host prints for the type reference `t` (the empty string when `t` is
not in the symbol table). -/
def printedName (g : Generator) (t : GoString) : GoString :=
  match g.typeNameToObject t with
  | some obj => obj.printed
  | none => []

/-- The host resolves the input and the output type reference of each of the methods. -/
def Resolvable (g : Generator) (methods : List MethodDescriptorProto) : Prop :=
  ∀ method ∈ methods, (g.typeNameToObject method.GetInputType).isSome = true ∧
    (g.typeNameToObject method.GetOutputType).isSome = true

instance (g : Generator) (methods : List MethodDescriptorProto) :
    Decidable (Resolvable g methods) := by
  unfold Resolvable
  infer_instance

/-- The calls `generateServerCode` makes on the host for one method. -/
def serverCalls (g : Generator) (method : MethodDescriptorProto) : List Call :=
  [Call.RecordTypeUse method.GetInputType, Call.RecordTypeUse method.GetOutputType,
    Call.P [serverCodeText (upperFirstLatter method.GetName)
      (printedName g method.GetInputType) (printedName g method.GetOutputType)]]

/-- The calls `generateClientCode` makes on the host for one method. -/
def clientCalls (g : Generator) (service : ServiceDescriptorProto)
    (method : MethodDescriptorProto) : List Call :=
  [Call.RecordTypeUse method.GetInputType, Call.RecordTypeUse method.GetOutputType,
    Call.P [clientCodeText (upperFirstLatter service.GetName) (upperFirstLatter method.GetName)
      (printedName g method.GetInputType) (printedName g method.GetOutputType) method.GetName]]

/-- The calls `generateService` makes on the host for one service. -/
def serviceCalls (g : Generator) (file : FileDescriptor) (service : ServiceDescriptorProto) :
    List Call :=
  [Call.P [lit "// This following code was generated by rpcx"],
    Call.P [lit "// Gernerated from " ++ file.GetName],
    Call.P [],
    Call.P [lit "//================== server skeleton==================="],
    Call.P [lit "type " ++ upperFirstLatter service.GetName ++ lit " interface \x7b"]] ++
  service.Method.flatMap (serverCalls g) ++
  [Call.P [registerText (upperFirstLatter service.GetName)
      (service.Method.map implRefText).flatten],
    Call.P [],
    Call.P [],
    Call.P [lit "//================== client stub==================="],
    Call.P [clientStubText (upperFirstLatter service.GetName)
      (service.Method.map fieldText).flatten (service.Method.map entryText).flatten]] ++
  service.Method.flatMap (clientCalls g service)

/-- Whether `pat` occurs in `text` as a contiguous run of bytes. -/
def occursIn (pat : GoString) : GoString → Bool
  | [] => pat.isEmpty
  | c :: text => pat.isPrefixOf (c :: text) || occursIn pat text

/-! ## Reference notions for the casing helper -/

/-- The ASCII uppercase form of a byte: a lowercase letter maps to its capital, any other
byte to itself. -/
def asciiToUpper (b : Byte) : Byte :=
  if 97 ≤ b.val ∧ b.val ≤ 122 then byte (b.val - 32) else b

/-- Source: `upperFirstLatter` (rpcx.go, lines 161-169), with the index expression `s[0]` and
the slice expression `s[1:]` as the partial operations they are in Go: `none` stands for the
run-time panic of an index or a slice bound out of range. -/
def upperFirstLatterChecked (s : GoString) : Option GoString :=
  if s.length = 0 then some []
  else if s.length = 1 then
    match s.get? 0 with
    | some b => some (toUpperOfByte b)
    | none => none
  else
    match s.get? 0 with
    | some b => if 1 ≤ s.length then some (toUpperOfByte b ++ s.drop 1) else none
    | none => none

/-- The first character of a string as UTF-8 reads it, for the one-byte and two-byte forms:
the code point and the number of bytes it takes. An empty string, a longer form or an invalid
sequence gives `none`. -/
def decodeFirstRune : GoString → Option (Nat × Nat)
  | [] => none
  | b :: rest =>
    if b.val < 0x80 then some (b.val, 1)
    else if 0xC2 ≤ b.val ∧ b.val ≤ 0xDF then
      match rest with
      | c :: _ =>
        if 0x80 ≤ c.val ∧ c.val ≤ 0xBF then some ((b.val - 0xC0) * 64 + (c.val - 0x80), 2)
        else none
      | [] => none
    else none

/-- The spec's description of the exported name, in its own words: the name with its first
character upper-cased and the rest unchanged. It is defined where the first character is
below U+0100, the range `unicodeToUpper` covers. -/
def upperFirstCharacter (s : GoString) : Option GoString :=
  match decodeFirstRune s with
  | some (r, n) => if r < 0x100 then some (encodeRune (unicodeToUpper r) ++ s.drop n) else none
  | none => none

/-! ## Sample inputs -/

/-- A symbol table that knows the two message types of the greeter example. -/
def sampleTable : GoString → Option Object := fun t =>
  if t = lit ".helloworld.HelloRequest" then some ⟨lit "HelloRequest"⟩
  else if t = lit ".helloworld.HelloReply" then some ⟨lit "HelloReply"⟩
  else none

/-- A host generator that has received no call yet. -/
def sampleHost : Generator := ⟨sampleTable, []⟩

/-- The method `sayHello(HelloRequest) returns (HelloReply)`. -/
def sayHello : MethodDescriptorProto :=
  ⟨some (lit "sayHello"), some (lit ".helloworld.HelloRequest"),
    some (lit ".helloworld.HelloReply")⟩

/-- The method `sayBye(HelloRequest) returns (HelloReply)`. -/
def sayBye : MethodDescriptorProto :=
  ⟨some (lit "sayBye"), some (lit ".helloworld.HelloRequest"),
    some (lit ".helloworld.HelloReply")⟩

/-- The service `Greeter` with the single method `sayHello`. -/
def greeter : ServiceDescriptorProto := ⟨some (lit "Greeter"), [sayHello]⟩

/-- The service `Greeter` with no method at all. -/
def bareGreeter : ServiceDescriptorProto := ⟨some (lit "Greeter"), []⟩

/-- The service `farewell` with the methods `sayBye` and `sayHello`, in that order. -/
def farewell : ServiceDescriptorProto := ⟨some (lit "farewell"), [sayBye, sayHello]⟩

/-- The file `greeter.proto` declaring the service `Greeter`. -/
def greeterFile : FileDescriptor := ⟨⟨some (lit "greeter.proto"), [greeter]⟩⟩

/-- The file `two.proto` declaring the services `Greeter` and `farewell`, in that order. -/
def twoServicesFile : FileDescriptor := ⟨⟨some (lit "two.proto"), [greeter, farewell]⟩⟩

/-- The file `messages.proto`, which declares no service. -/
def messagesFile : FileDescriptor := ⟨⟨some (lit "messages.proto"), []⟩⟩

/-- The method `get(HelloRequest) returns (HelloReply)`. -/
def getLower : MethodDescriptorProto :=
  ⟨some (lit "get"), some (lit ".helloworld.HelloRequest"), some (lit ".helloworld.HelloReply")⟩

/-- The method `Get(HelloRequest) returns (HelloReply)`. -/
def getUpper : MethodDescriptorProto :=
  ⟨some (lit "Get"), some (lit ".helloworld.HelloRequest"), some (lit ".helloworld.HelloReply")⟩

/-- The service `Store` with the methods `get` and `Get`, in that order. -/
def store : ServiceDescriptorProto := ⟨some (lit "Store"), [getLower, getUpper]⟩

/-! ## Expanding the formats -/

set_option maxRecDepth 100000 in
theorem Sprintf_serverCodeText (methodName inType outType : GoString) :
    Sprintf (lit "// %s is server rpc method as defined\n\t\t%s(ctx context.Context, args *%s, reply *%s) error\n\t")
      [methodName, methodName, inType, outType] =
    serverCodeText methodName inType outType := by
  simp only [serverCodeText, List.append_assoc]
  rfl

set_option maxRecDepth 100000 in
theorem Sprintf_clientCodeText (serviceName methodName inType outType wireName : GoString) :
    Sprintf (lit "// %[2]s is client rpc method as defined\n\t\tfunc (c *%[1]sClient) %[2]s(ctx context.Context, args *%[3]s) (reply *%[4]s, err error) \x7b\n\t\t\treply = &%[4]s\x7b\x7d\n\t\t\terr = c.xclient.Call(ctx, \"%[5]s\", args, reply)\n\t\t\treturn reply, err\n\t\t\x7d\n\t\t\n\t\t// %[2]sGo is client rpc method as defined\n\t\tfunc (c *%[1]sClient) %[2]sGo(ctx context.Context, args *%[3]s, done chan *client.Call) (call *client.Call, err error) \x7b\n\t\t\treturn c.xclient.Go(ctx, \"%[5]s\", args, &%[4]s\x7b\x7d, done)\n\t\t\x7d\n\t")
      [serviceName, methodName, inType, outType, wireName] =
    clientCodeText serviceName methodName inType outType wireName := by
  simp only [clientCodeText, List.append_assoc]
  rfl

set_option maxRecDepth 100000 in
theorem Sprintf_registerText (serviceName refs : GoString) :
    Sprintf (lit "\x7d\n\n\t\t// RegisterFor%[1]s register the '%[1]s' service to a server.\n\t\t// And will check all methods of '%[1]s' which must be implemented.\n\t\tfunc RegisterFor%[1]s(s *server.Server, meta string) error \x7b\n\t\t\timpl := new(%[1]sImpl)%[2]s\n\t\t\treturn s.RegisterName(\"%[1]s\", impl, meta)\n\t\t\x7d\n\t")
      [serviceName, refs] =
    registerText serviceName refs := by
  simp only [registerText, List.append_assoc]
  rfl

set_option maxRecDepth 100000 in
theorem Sprintf_clientStubText (serviceName fields entries : GoString) :
    Sprintf (lit "// %[1]s is a client wrapped XClient.\n\t\ttype %[1]sClient struct \x7b\n\t\t\txclient client.XClient\n\t\t\tfx %[1]sMethods\n\t\t\x7d\n\n\t\ttype %[1]sMethods struct \x7b%[2]s\x7d\n\n\t\t// Make%[1]sClient wraps a XClient as %[1]sClient.\n\t\t// You can pass a shared XClient object created by anywhere.\n\t\tfunc Make%[1]sClient(xclient client.XClient) *%[1]sClient \x7b\n\t\t\treturn &%[1]sClient\x7b\n\t\t\t\txclient: xclient,\n\t\t\t\tfx: UserMethods \x7b%[3]s\n\t\t\t\t\x7d,\n\t\t\t\x7d\n\t\t\x7d\n\t")
      [serviceName, fields, entries] =
    clientStubText serviceName fields entries := by
  simp only [clientStubText, List.append_assoc]
  rfl

theorem Sprintf_header (name : GoString) :
    Sprintf (lit "// Gernerated from %s") [name] = lit "// Gernerated from " ++ name := by
  have h : Sprintf (lit "// Gernerated from %s") [name] =
      lit "// Gernerated from " ++ (name ++ []) := rfl
  rw [List.append_nil] at h
  exact h

theorem Sprintf_interface (serviceName : GoString) :
    Sprintf (lit "type %s interface \x7b") [serviceName] =
      lit "type " ++ serviceName ++ lit " interface \x7b" := by
  simp only [List.append_assoc]
  rfl

theorem Sprintf_implRef (method : MethodDescriptorProto) :
    Sprintf (lit "\n_ = impl.%s") [upperFirstLatter method.GetName] = implRefText method := by
  have h : Sprintf (lit "\n_ = impl.%s") [upperFirstLatter method.GetName] =
      lit "\n_ = impl." ++ (upperFirstLatter method.GetName ++ []) := rfl
  rw [List.append_nil] at h
  exact h

theorem Sprintf_field (method : MethodDescriptorProto) :
    Sprintf (lit "\n%s string") [upperFirstLatter method.GetName] = fieldText method := by
  simp only [fieldText, List.append_assoc]
  rfl

theorem Sprintf_entry (method : MethodDescriptorProto) :
    Sprintf (lit "\n%s: \"%s\",") [upperFirstLatter method.GetName, method.GetName] =
      entryText method := by
  simp only [entryText, List.append_assoc]
  rfl

/-! ## The loops -/

theorem foldl_append_eq {α : Type} (f : α → GoString) (xs : List α) (init : GoString) :
    xs.foldl (fun acc x => acc ++ f x) init = init ++ (xs.map f).flatten := by
  induction xs generalizing init with
  | nil => simp
  | cons x xs ih => simp [ih, List.append_assoc]

theorem implRefs_eq (service : ServiceDescriptorProto) :
    implRefs service = (service.Method.map implRefText).flatten := by
  simp only [implRefs, Sprintf_implRef]
  rw [foldl_append_eq implRefText]
  simp

theorem methodFields_eq (service : ServiceDescriptorProto) :
    methodFields service = (service.Method.map fieldText).flatten := by
  simp only [methodFields, Sprintf_field]
  rw [foldl_append_eq fieldText]
  simp

theorem methodEntries_eq (service : ServiceDescriptorProto) :
    methodEntries service = (service.Method.map entryText).flatten := by
  simp only [methodEntries, Sprintf_entry]
  rw [foldl_append_eq entryText]
  simp

theorem typeName_eq (str : GoString) (g : Generator) (obj : Object)
    (h : g.typeNameToObject str = some obj) :
    typeName str g =
      some (obj.printed, ⟨g.typeNameToObject, g.calls ++ [Call.RecordTypeUse str]⟩) := by
  simp [typeName, objectNamed, Generator.ObjectNamed, Generator.RecordTypeUse,
    Generator.TypeName, h]

theorem typeName_none (str : GoString) (g : Generator) (h : g.typeNameToObject str = none) :
    typeName str g = none := by
  simp [typeName, objectNamed, Generator.ObjectNamed, Generator.RecordTypeUse, h]

theorem printedName_eq (g : Generator) (t : GoString) (obj : Object)
    (h : g.typeNameToObject t = some obj) : printedName g t = obj.printed := by
  simp [printedName, h]

theorem generateServerCode_eq (service : ServiceDescriptorProto)
    (method : MethodDescriptorProto) (g : Generator)
    (hin : (g.typeNameToObject method.GetInputType).isSome = true)
    (hout : (g.typeNameToObject method.GetOutputType).isSome = true) :
    generateServerCode service method g =
      some ⟨g.typeNameToObject, g.calls ++ serverCalls g method⟩ := by
  obtain ⟨oi, hi⟩ := Option.isSome_iff_exists.mp hin
  obtain ⟨oo, ho⟩ := Option.isSome_iff_exists.mp hout
  simp only [generateServerCode, typeName_eq _ g oi hi]
  rw [typeName_eq method.GetOutputType
    ⟨g.typeNameToObject, g.calls ++ [Call.RecordTypeUse method.GetInputType]⟩ oo ho]
  simp [P, Generator.P, serverCalls, Sprintf_serverCodeText, printedName_eq _ _ _ hi,
    printedName_eq _ _ _ ho]

theorem generateClientCode_eq (service : ServiceDescriptorProto)
    (method : MethodDescriptorProto) (g : Generator)
    (hin : (g.typeNameToObject method.GetInputType).isSome = true)
    (hout : (g.typeNameToObject method.GetOutputType).isSome = true) :
    generateClientCode service method g =
      some ⟨g.typeNameToObject, g.calls ++ clientCalls g service method⟩ := by
  obtain ⟨oi, hi⟩ := Option.isSome_iff_exists.mp hin
  obtain ⟨oo, ho⟩ := Option.isSome_iff_exists.mp hout
  simp only [generateClientCode, typeName_eq _ g oi hi]
  rw [typeName_eq method.GetOutputType
    ⟨g.typeNameToObject, g.calls ++ [Call.RecordTypeUse method.GetInputType]⟩ oo ho]
  simp [P, Generator.P, clientCalls, Sprintf_clientCodeText, printedName_eq _ _ _ hi,
    printedName_eq _ _ _ ho]

theorem forMethods_eq (step : MethodDescriptorProto → Generator → Option Generator)
    (calls : MethodDescriptorProto → List Call) (table : GoString → Option Object)
    (methods : List MethodDescriptorProto)
    (h : ∀ method ∈ methods, ∀ cs, step method ⟨table, cs⟩ = some ⟨table, cs ++ calls method⟩)
    (cs : List Call) :
    forMethods step methods ⟨table, cs⟩ = some ⟨table, cs ++ methods.flatMap calls⟩ := by
  induction methods generalizing cs with
  | nil => simp [forMethods]
  | cons method rest ih =>
    have hstep := h method (List.mem_cons_self _ _) cs
    have hrest := ih (fun m hm => h m (List.mem_cons_of_mem _ hm)) (cs ++ calls method)
    simp only [forMethods, hstep, hrest, List.flatMap_cons, List.append_assoc]

theorem forMethods_server (service : ServiceDescriptorProto) (g : Generator)
    (methods : List MethodDescriptorProto) (h : Resolvable g methods) (cs : List Call) :
    forMethods (generateServerCode service) methods ⟨g.typeNameToObject, cs⟩ =
      some ⟨g.typeNameToObject, cs ++ methods.flatMap (serverCalls g)⟩ :=
  forMethods_eq _ _ _ _
    (fun method hm cs =>
      generateServerCode_eq service method ⟨g.typeNameToObject, cs⟩ (h method hm).1
        (h method hm).2) cs

theorem forMethods_client (service : ServiceDescriptorProto) (g : Generator)
    (methods : List MethodDescriptorProto) (h : Resolvable g methods) (cs : List Call) :
    forMethods (generateClientCode service) methods ⟨g.typeNameToObject, cs⟩ =
      some ⟨g.typeNameToObject, cs ++ methods.flatMap (clientCalls g service)⟩ :=
  forMethods_eq _ _ _ _
    (fun method hm cs =>
      generateClientCode_eq service method ⟨g.typeNameToObject, cs⟩ (h method hm).1
        (h method hm).2) cs

/-- The closed form of `generateService`: when the types of the methods resolve, the run
completes and makes exactly the calls `serviceCalls` on the host. -/
theorem generateService_eq (file : FileDescriptor) (service : ServiceDescriptorProto)
    (index : Nat) (g : Generator) (h : Resolvable g service.Method) :
    generateService file service index g =
      some ⟨g.typeNameToObject, g.calls ++ serviceCalls g file service⟩ := by
  simp only [generateService, P, Generator.P, Sprintf_header, Sprintf_interface,
    Sprintf_registerText, Sprintf_clientStubText, implRefs_eq, methodFields_eq,
    methodEntries_eq]
  rw [forMethods_server service g service.Method h]
  simp only []
  rw [forMethods_client service g service.Method h]
  simp [serviceCalls, List.append_assoc]

theorem forServices_eq (file : FileDescriptor) (g : Generator)
    (services : List ServiceDescriptorProto)
    (h : ∀ service ∈ services, Resolvable g service.Method) (index : Nat) (cs : List Call) :
    forServices file index services ⟨g.typeNameToObject, cs⟩ =
      some ⟨g.typeNameToObject, cs ++ services.flatMap (serviceCalls g file)⟩ := by
  induction services generalizing index cs with
  | nil => simp [forServices]
  | cons service rest ih =>
    have hstep := generateService_eq file service index ⟨g.typeNameToObject, cs⟩
      (h service (List.mem_cons_self _ _))
    have hrest := ih (fun s hs => h s (List.mem_cons_of_mem _ hs)) (index + 1)
      (cs ++ serviceCalls g file service)
    simp only [forServices, hstep]
    exact hrest.trans (by simp [List.append_assoc])

/-- The closed form of `Generate` on a file with at least one service. -/
theorem Generate_eq (file : FileDescriptor) (g : Generator)
    (hne : file.FileDescriptorProto.Service ≠ [])
    (h : ∀ service ∈ file.FileDescriptorProto.Service, Resolvable g service.Method) :
    Generate file g =
      some ⟨g.typeNameToObject,
        g.calls ++ [Call.AddImport rpcxServerPkgPath, Call.AddImport rpcxClientPkgPath,
          Call.AddImport rpcxProtocolPkgPath, Call.AddImport (lit "context")] ++
        file.FileDescriptorProto.Service.flatMap (serviceCalls g file)⟩ := by
  have hlen : ¬ file.FileDescriptorProto.Service.length = 0 := by
    simpa [List.length_eq_zero] using hne
  simp only [Generate, hlen, if_false, Generator.AddImport]
  rw [forServices_eq file g _ h]
  simp [List.append_assoc]

/-! ## The text of the calls -/

theorem textOf_append (xs ys : List Call) : textOf (xs ++ ys) = textOf xs ++ textOf ys := by
  simp [textOf]

theorem textOf_flatMap {α : Type} (f : α → List Call) (xs : List α) :
    textOf (xs.flatMap f) = (xs.map (fun x => textOf (f x))).flatten := by
  induction xs with
  | nil => simp [textOf]
  | cons x xs ih => simp [textOf_append, ih]

theorem textOf_P (str : List GoString) (rest : List Call) :
    textOf (Call.P str :: rest) = str.flatten ++ lit "\n" ++ textOf rest := by
  simp [textOf, Call.text]

theorem textOf_RecordTypeUse (t : GoString) (rest : List Call) :
    textOf (Call.RecordTypeUse t :: rest) = textOf rest := by
  simp [textOf, Call.text]

theorem textOf_AddImport (importPath : GoString) (rest : List Call) :
    textOf (Call.AddImport importPath :: rest) = textOf rest := by
  simp [textOf, Call.text]

theorem textOf_nil : textOf [] = [] := rfl

theorem textOf_serverCalls (g : Generator) (method : MethodDescriptorProto) :
    textOf (serverCalls g method) =
      serverCodeText (upperFirstLatter method.GetName) (printedName g method.GetInputType)
        (printedName g method.GetOutputType) ++ lit "\n" := by
  simp [serverCalls, textOf_P, textOf_RecordTypeUse, textOf_nil]

theorem textOf_clientCalls (g : Generator) (service : ServiceDescriptorProto)
    (method : MethodDescriptorProto) :
    textOf (clientCalls g service method) =
      clientCodeText (upperFirstLatter service.GetName) (upperFirstLatter method.GetName)
        (printedName g method.GetInputType) (printedName g method.GetOutputType)
        method.GetName ++ lit "\n" := by
  simp [clientCalls, textOf_P, textOf_RecordTypeUse, textOf_nil]

theorem textOf_serviceCalls (g : Generator) (file : FileDescriptor)
    (service : ServiceDescriptorProto) :
    textOf (serviceCalls g file service) =
      lit "// This following code was generated by rpcx" ++ lit "\n" ++
      (lit "// Gernerated from " ++ file.GetName) ++ lit "\n" ++
      lit "\n" ++
      lit "//================== server skeleton===================" ++ lit "\n" ++
      (lit "type " ++ upperFirstLatter service.GetName ++ lit " interface \x7b") ++ lit "\n" ++
      (service.Method.map (fun method => textOf (serverCalls g method))).flatten ++
      registerText (upperFirstLatter service.GetName)
        (service.Method.map implRefText).flatten ++ lit "\n" ++
      lit "\n" ++
      lit "\n" ++
      lit "//================== client stub===================" ++ lit "\n" ++
      clientStubText (upperFirstLatter service.GetName) (service.Method.map fieldText).flatten
        (service.Method.map entryText).flatten ++ lit "\n" ++
      (service.Method.map (fun method => textOf (clientCalls g service method))).flatten := by
  simp only [serviceCalls, textOf_append, textOf_flatMap, textOf_P, textOf_nil,
    List.flatten_cons, List.flatten_nil, List.append_nil, List.nil_append, List.append_assoc]

theorem serviceCalls_congr (g g0 : Generator) (file : FileDescriptor)
    (service : ServiceDescriptorProto) (h : g0.typeNameToObject = g.typeNameToObject) :
    serviceCalls g0 file service = serviceCalls g file service := by
  have hs : serverCalls g0 = serverCalls g := by
    funext method
    simp only [serverCalls, printedName, h]
  have hc : clientCalls g0 service = clientCalls g service := by
    funext method
    simp only [clientCalls, printedName, h]
  simp only [serviceCalls, hs, hc]

theorem import?_serverCalls (g : Generator) (method : MethodDescriptorProto) :
    ∀ c ∈ serverCalls g method, c.import? = none := by
  intro c hc
  simp only [serverCalls, List.mem_cons, List.mem_singleton, List.not_mem_nil, or_false] at hc
  rcases hc with rfl | rfl | rfl <;> rfl

theorem import?_clientCalls (g : Generator) (service : ServiceDescriptorProto)
    (method : MethodDescriptorProto) :
    ∀ c ∈ clientCalls g service method, c.import? = none := by
  intro c hc
  simp only [clientCalls, List.mem_cons, List.mem_singleton, List.not_mem_nil, or_false] at hc
  rcases hc with rfl | rfl | rfl <;> rfl

theorem import?_serviceCalls (g : Generator) (file : FileDescriptor)
    (service : ServiceDescriptorProto) :
    ∀ c ∈ serviceCalls g file service, c.import? = none := by
  intro c hc
  simp only [serviceCalls, List.mem_append, List.mem_flatMap] at hc
  rcases hc with ((h | ⟨m, -, h⟩) | h) | ⟨m, -, h⟩
  · simp only [List.mem_cons, List.mem_singleton, List.not_mem_nil, or_false] at h
    rcases h with rfl | rfl | rfl | rfl | rfl <;> rfl
  · exact import?_serverCalls g m c h
  · simp only [List.mem_cons, List.mem_singleton, List.not_mem_nil, or_false] at h
    rcases h with rfl | rfl | rfl | rfl | rfl <;> rfl
  · exact import?_clientCalls g service m c h

theorem filterMap_import?_eq_nil (cs : List Call) (h : ∀ c ∈ cs, c.import? = none) :
    cs.filterMap Call.import? = [] := by
  induction cs with
  | nil => rfl
  | cons c cs ih =>
    simp [List.filterMap_cons, h c (List.mem_cons_self _ _),
      ih (fun c hc => h c (List.mem_cons_of_mem _ hc))]

set_option maxRecDepth 100000 in
theorem toUpperOfByte_length (b : Byte) :
    (toUpperOfByte b).length = if b.val < 128 then 1 else 2 := by
  revert b
  decide

theorem upperFirstLatter_cons (b : Byte) (rest : GoString) :
    upperFirstLatter (b :: rest) = toUpperOfByte b ++ rest := by
  cases rest <;> simp [upperFirstLatter]

theorem upperFirstLatter_length (s : GoString) :
    ∃ d, d ≤ 1 ∧ (upperFirstLatter s).length = s.length + d := by
  cases s with
  | nil => exact ⟨0, by omega, rfl⟩
  | cons b rest =>
    rw [upperFirstLatter_cons, List.length_append, toUpperOfByte_length]
    by_cases hb : b.val < 128
    · exact ⟨0, by omega, by simp [hb]; omega⟩
    · exact ⟨1, by omega, by simp [hb]; omega⟩

/-- The entry of the method-name table determines the wire name it holds. -/
theorem entry_injective (a b : GoString)
    (h : lit "\n" ++ upperFirstLatter a ++ lit ": \"" ++ a ++ lit "\"," =
      lit "\n" ++ upperFirstLatter b ++ lit ": \"" ++ b ++ lit "\",") : a = b := by
  obtain ⟨da, hda, hla⟩ := upperFirstLatter_length a
  obtain ⟨db, hdb, hlb⟩ := upperFirstLatter_length b
  have hlen := congrArg List.length h
  simp only [List.length_append, hla, hlb] at hlen
  have hab : a.length = b.length := by omega
  have h2 : (lit "\n" ++ upperFirstLatter a ++ lit ": \"") ++ (a ++ lit "\",") =
      (lit "\n" ++ upperFirstLatter b ++ lit ": \"") ++ (b ++ lit "\",") := by
    simpa only [List.append_assoc] using h
  have h3 := (List.append_inj' h2 (by simp [hab])).2
  exact List.append_cancel_right h3

theorem occursIn_iff (pat text : GoString) : occursIn pat text = true ↔ pat <:+: text := by
  induction text with
  | nil => simp [occursIn, List.isEmpty_iff]
  | cons c text ih =>
    simp only [occursIn, Bool.or_eq_true, ih, List.infix_cons_iff, List.isPrefixOf_iff_prefix]

/-! ## The claims -/

/-- C10: `upperFirstLatter("")` is `""`, `upperFirstLatter("a")` is `"A"` and
`upperFirstLatter("getUser")` is `"GetUser"`; the empty input yields the empty string. -/
theorem upperFirstLatter_examples :
    upperFirstLatter (lit "") = lit "" ∧ upperFirstLatter (lit "a") = lit "A" ∧
      upperFirstLatter (lit "getUser") = lit "GetUser" := by
  decide

/-- C4: on a file that declares no service, `Generate` returns with the host generator
exactly as it was: no text appended, no import declared, no type use recorded. -/
theorem Generate_no_services (file : FileDescriptor) (g : Generator)
    (h : file.FileDescriptorProto.Service = []) :
    Generate file g = some g ∧
      ∀ g', Generate file g = some g' →
        g'.Buffer = g.Buffer ∧ g'.addedImports = g.addedImports ∧ g'.usedTypes = g.usedTypes := by
  have hrun : Generate file g = some g := by simp [Generate, h]
  refine ⟨hrun, fun g' hg' => ?_⟩
  rw [hrun] at hg'
  cases hg'
  exact ⟨rfl, rfl, rfl⟩

theorem Generate_no_services_witness :
    messagesFile.FileDescriptorProto.Service = [] ∧
      (Generate messagesFile sampleHost = some sampleHost ∧
        ∀ g', Generate messagesFile sampleHost = some g' →
          g'.Buffer = sampleHost.Buffer ∧ g'.addedImports = sampleHost.addedImports ∧
            g'.usedTypes = sampleHost.usedTypes) :=
  ⟨rfl, Generate_no_services messagesFile sampleHost rfl⟩

set_option maxRecDepth 100000 in
/-- C7: for a service `S` and a method `m` whose input and output types resolve to `I` and
`O`, `generateClientCode` completes and appends exactly two functions with receiver
`(c *<UpperFirst(S)>Client)`: `<UpperFirst(m)>(ctx context.Context, args *I) (reply *O, err
error)`, which allocates `&O{}` and calls `c.xclient.Call` with the literal `"m"`, and
`<UpperFirst(m)>Go(ctx context.Context, args *I, done chan *client.Call) (call *client.Call,
err error)`, which calls `c.xclient.Go` with the literal `"m"`; the literal is the original
name, not the upper-cased one. -/
theorem generateClientCode_text (service : ServiceDescriptorProto)
    (method : MethodDescriptorProto) (g : Generator) (I O : GoString)
    (hin : g.typeNameToObject method.GetInputType = some ⟨I⟩)
    (hout : g.typeNameToObject method.GetOutputType = some ⟨O⟩) :
    ∃ g', generateClientCode service method g = some g' ∧
      g'.Buffer = g.Buffer ++
        lit "// " ++ upperFirstLatter method.GetName ++ lit " is client rpc method as defined\n\t\t" ++
        lit "func (c *" ++ upperFirstLatter service.GetName ++ lit "Client) " ++ upperFirstLatter method.GetName ++ lit "(ctx context.Context, args *" ++ I ++
        lit ") (reply *" ++ O ++ lit ", err error) \x7b\n\t\t\t" ++
        lit "reply = &" ++ O ++ lit "\x7b\x7d\n\t\t\t" ++
        lit "err = c.xclient.Call(ctx, \"" ++ method.GetName ++ lit "\", args, reply)\n\t\t\t" ++
        lit "return reply, err\n\t\t\x7d\n\t\t\n\t\t" ++
        lit "// " ++ upperFirstLatter method.GetName ++ lit "Go is client rpc method as defined\n\t\t" ++
        lit "func (c *" ++ upperFirstLatter service.GetName ++ lit "Client) " ++ upperFirstLatter method.GetName ++ lit "Go(ctx context.Context, args *" ++ I ++
        lit ", done chan *client.Call) (call *client.Call, err error) \x7b\n\t\t\t" ++
        lit "return c.xclient.Go(ctx, \"" ++ method.GetName ++ lit "\", args, &" ++ O ++
        lit "\x7b\x7d, done)\n\t\t\x7d\n\t" ++ lit "\n" := by
  refine ⟨_, generateClientCode_eq service method g (by simp [hin]) (by simp [hout]), ?_⟩
  simp only [Generator.Buffer, textOf_append, textOf_clientCalls, printedName_eq _ _ _ hin,
    printedName_eq _ _ _ hout, clientCodeText, List.append_assoc]
  rfl

theorem generateClientCode_text_witness :
    (sampleHost.typeNameToObject sayHello.GetInputType = some ⟨lit "HelloRequest"⟩ ∧
      sampleHost.typeNameToObject sayHello.GetOutputType = some ⟨lit "HelloReply"⟩) ∧
    ∃ g', generateClientCode greeter sayHello sampleHost = some g' ∧
      g'.Buffer = sampleHost.Buffer ++
        lit "// " ++ upperFirstLatter sayHello.GetName ++ lit " is client rpc method as defined\n\t\t" ++
        lit "func (c *" ++ upperFirstLatter greeter.GetName ++ lit "Client) " ++ upperFirstLatter sayHello.GetName ++ lit "(ctx context.Context, args *" ++ lit "HelloRequest" ++
        lit ") (reply *" ++ lit "HelloReply" ++ lit ", err error) \x7b\n\t\t\t" ++
        lit "reply = &" ++ lit "HelloReply" ++ lit "\x7b\x7d\n\t\t\t" ++
        lit "err = c.xclient.Call(ctx, \"" ++ sayHello.GetName ++ lit "\", args, reply)\n\t\t\t" ++
        lit "return reply, err\n\t\t\x7d\n\t\t\n\t\t" ++
        lit "// " ++ upperFirstLatter sayHello.GetName ++ lit "Go is client rpc method as defined\n\t\t" ++
        lit "func (c *" ++ upperFirstLatter greeter.GetName ++ lit "Client) " ++ upperFirstLatter sayHello.GetName ++ lit "Go(ctx context.Context, args *" ++ lit "HelloRequest" ++
        lit ", done chan *client.Call) (call *client.Call, err error) \x7b\n\t\t\t" ++
        lit "return c.xclient.Go(ctx, \"" ++ sayHello.GetName ++ lit "\", args, &" ++ lit "HelloReply" ++
        lit "\x7b\x7d, done)\n\t\t\x7d\n\t" ++ lit "\n" :=
  ⟨⟨by decide, by decide⟩,
    generateClientCode_text greeter sayHello sampleHost (lit "HelloRequest") (lit "HelloReply")
      (by decide) (by decide)⟩

set_option maxRecDepth 100000 in
/-- C3: for a service whose methods are declared in order `[m1, ..., mn]` (and whose types
resolve), `generateService` completes, and the text it appends lists the methods in that same
order in each of its parts: the server interface signatures, the `_ = impl.X` references of
the registration function, the fields of the method-name struct, the entries of the
method-name table initialiser, and the client method pairs (`X` then `XGo` for `m1`, then for
`m2`, ...). Each part is the concatenation, over the declared method list, of the text of one
method. -/
theorem generateService_method_order (file : FileDescriptor)
    (service : ServiceDescriptorProto) (index : Nat) (g : Generator)
    (h : Resolvable g service.Method) :
    ∃ g', generateService file service index g = some g' ∧
      g'.Buffer = g.Buffer ++
        lit "// This following code was generated by rpcx\n" ++
        lit "// Gernerated from " ++ file.GetName ++ lit "\n" ++
        lit "\n" ++
        lit "//================== server skeleton===================\n" ++
        lit "type " ++ upperFirstLatter service.GetName ++ lit " interface \x7b\n" ++
        (service.Method.map (fun method =>
          serverCodeText (upperFirstLatter method.GetName) (printedName g method.GetInputType)
            (printedName g method.GetOutputType) ++ lit "\n")).flatten ++
        lit "\x7d\n\n\t\t" ++
        lit "// RegisterFor" ++ upperFirstLatter service.GetName ++ lit " register the '" ++ upperFirstLatter service.GetName ++ lit "' service to a server.\n\t\t" ++
        lit "// And will check all methods of '" ++ upperFirstLatter service.GetName ++ lit "' which must be implemented.\n\t\t" ++
        lit "func RegisterFor" ++ upperFirstLatter service.GetName ++ lit "(s *server.Server, meta string) error \x7b\n\t\t\t" ++
        lit "impl := new(" ++ upperFirstLatter service.GetName ++ lit "Impl)" ++
        (service.Method.map implRefText).flatten ++
        lit "\n\t\t\t" ++
        lit "return s.RegisterName(\"" ++ upperFirstLatter service.GetName ++ lit "\", impl, meta)\n\t\t" ++
        lit "\x7d\n\t" ++ lit "\n" ++
        lit "\n" ++
        lit "\n" ++
        lit "//================== client stub===================\n" ++
        lit "// " ++ upperFirstLatter service.GetName ++ lit " is a client wrapped XClient.\n\t\t" ++
        lit "type " ++ upperFirstLatter service.GetName ++ lit "Client struct \x7b\n\t\t\t" ++
        lit "xclient client.XClient\n\t\t\t" ++
        lit "fx " ++ upperFirstLatter service.GetName ++ lit "Methods\n\t\t" ++
        lit "\x7d\n\n\t\t" ++
        lit "type " ++ upperFirstLatter service.GetName ++ lit "Methods struct \x7b" ++
        (service.Method.map fieldText).flatten ++
        lit "\x7d\n\n\t\t" ++
        lit "// Make" ++ upperFirstLatter service.GetName ++ lit "Client wraps a XClient as " ++ upperFirstLatter service.GetName ++ lit "Client.\n\t\t" ++
        lit "// You can pass a shared XClient object created by anywhere.\n\t\t" ++
        lit "func Make" ++ upperFirstLatter service.GetName ++ lit "Client(xclient client.XClient) *" ++ upperFirstLatter service.GetName ++ lit "Client \x7b\n\t\t\t" ++
        lit "return &" ++ upperFirstLatter service.GetName ++ lit "Client\x7b\n\t\t\t\t" ++
        lit "xclient: xclient,\n\t\t\t\t" ++
        lit "fx: UserMethods \x7b" ++
        (service.Method.map entryText).flatten ++
        lit "\n\t\t\t\t" ++
        lit "\x7d,\n\t\t\t" ++
        lit "\x7d\n\t\t" ++
        lit "\x7d\n\t" ++ lit "\n" ++
        (service.Method.map (fun method =>
          clientCodeText (upperFirstLatter service.GetName) (upperFirstLatter method.GetName)
            (printedName g method.GetInputType) (printedName g method.GetOutputType)
            method.GetName ++ lit "\n")).flatten := by
  refine ⟨_, generateService_eq file service index g h, ?_⟩
  simp only [Generator.Buffer, textOf_append, textOf_serviceCalls, textOf_serverCalls,
    textOf_clientCalls, registerText, clientStubText, List.append_assoc]
  rfl

set_option maxRecDepth 100000 in
theorem generateService_method_order_witness :
    Resolvable sampleHost farewell.Method ∧
    ∃ g', generateService twoServicesFile farewell 1 sampleHost = some g' ∧
      g'.Buffer = sampleHost.Buffer ++
        lit "// This following code was generated by rpcx\n" ++
        lit "// Gernerated from " ++ twoServicesFile.GetName ++ lit "\n" ++
        lit "\n" ++
        lit "//================== server skeleton===================\n" ++
        lit "type " ++ upperFirstLatter farewell.GetName ++ lit " interface \x7b\n" ++
        (farewell.Method.map (fun method =>
          serverCodeText (upperFirstLatter method.GetName) (printedName sampleHost method.GetInputType)
            (printedName sampleHost method.GetOutputType) ++ lit "\n")).flatten ++
        lit "\x7d\n\n\t\t" ++
        lit "// RegisterFor" ++ upperFirstLatter farewell.GetName ++ lit " register the '" ++ upperFirstLatter farewell.GetName ++ lit "' service to a server.\n\t\t" ++
        lit "// And will check all methods of '" ++ upperFirstLatter farewell.GetName ++ lit "' which must be implemented.\n\t\t" ++
        lit "func RegisterFor" ++ upperFirstLatter farewell.GetName ++ lit "(s *server.Server, meta string) error \x7b\n\t\t\t" ++
        lit "impl := new(" ++ upperFirstLatter farewell.GetName ++ lit "Impl)" ++
        (farewell.Method.map implRefText).flatten ++
        lit "\n\t\t\t" ++
        lit "return s.RegisterName(\"" ++ upperFirstLatter farewell.GetName ++ lit "\", impl, meta)\n\t\t" ++
        lit "\x7d\n\t" ++ lit "\n" ++
        lit "\n" ++
        lit "\n" ++
        lit "//================== client stub===================\n" ++
        lit "// " ++ upperFirstLatter farewell.GetName ++ lit " is a client wrapped XClient.\n\t\t" ++
        lit "type " ++ upperFirstLatter farewell.GetName ++ lit "Client struct \x7b\n\t\t\t" ++
        lit "xclient client.XClient\n\t\t\t" ++
        lit "fx " ++ upperFirstLatter farewell.GetName ++ lit "Methods\n\t\t" ++
        lit "\x7d\n\n\t\t" ++
        lit "type " ++ upperFirstLatter farewell.GetName ++ lit "Methods struct \x7b" ++
        (farewell.Method.map fieldText).flatten ++
        lit "\x7d\n\n\t\t" ++
        lit "// Make" ++ upperFirstLatter farewell.GetName ++ lit "Client wraps a XClient as " ++ upperFirstLatter farewell.GetName ++ lit "Client.\n\t\t" ++
        lit "// You can pass a shared XClient object created by anywhere.\n\t\t" ++
        lit "func Make" ++ upperFirstLatter farewell.GetName ++ lit "Client(xclient client.XClient) *" ++ upperFirstLatter farewell.GetName ++ lit "Client \x7b\n\t\t\t" ++
        lit "return &" ++ upperFirstLatter farewell.GetName ++ lit "Client\x7b\n\t\t\t\t" ++
        lit "xclient: xclient,\n\t\t\t\t" ++
        lit "fx: UserMethods \x7b" ++
        (farewell.Method.map entryText).flatten ++
        lit "\n\t\t\t\t" ++
        lit "\x7d,\n\t\t\t" ++
        lit "\x7d\n\t\t" ++
        lit "\x7d\n\t" ++ lit "\n" ++
        (farewell.Method.map (fun method =>
          clientCodeText (upperFirstLatter farewell.GetName) (upperFirstLatter method.GetName)
            (printedName sampleHost method.GetInputType) (printedName sampleHost method.GetOutputType)
            method.GetName ++ lit "\n")).flatten :=
  ⟨by decide, generateService_method_order twoServicesFile farewell 1 sampleHost (by decide)⟩

set_option maxRecDepth 100000 in
/-- C9: for a service with an empty method list, `generateService` completes and appends
`type <UpperFirst(S)> interface {` immediately followed by the closing `}`, with no method
signature between them; it still appends the registration function
`RegisterFor<UpperFirst(S)>` (with no `_ = impl.` line), the client struct, the method-name
struct with no fields and the constructor, and it appends no client method: the text ends
with the constructor. -/
theorem generateService_no_methods (file : FileDescriptor) (service : ServiceDescriptorProto)
    (index : Nat) (g : Generator) (h : service.Method = []) :
    ∃ g', generateService file service index g = some g' ∧
      g'.Buffer = g.Buffer ++
        lit "// This following code was generated by rpcx\n" ++
        lit "// Gernerated from " ++ file.GetName ++ lit "\n" ++
        lit "\n" ++
        lit "//================== server skeleton===================\n" ++
        lit "type " ++ upperFirstLatter service.GetName ++ lit " interface \x7b\n" ++
        lit "\x7d\n\n\t\t" ++
        lit "// RegisterFor" ++ upperFirstLatter service.GetName ++ lit " register the '" ++ upperFirstLatter service.GetName ++ lit "' service to a server.\n\t\t" ++
        lit "// And will check all methods of '" ++ upperFirstLatter service.GetName ++ lit "' which must be implemented.\n\t\t" ++
        lit "func RegisterFor" ++ upperFirstLatter service.GetName ++ lit "(s *server.Server, meta string) error \x7b\n\t\t\t" ++
        lit "impl := new(" ++ upperFirstLatter service.GetName ++ lit "Impl)" ++
        lit "\n\t\t\t" ++
        lit "return s.RegisterName(\"" ++ upperFirstLatter service.GetName ++ lit "\", impl, meta)\n\t\t" ++
        lit "\x7d\n\t" ++ lit "\n" ++
        lit "\n" ++
        lit "\n" ++
        lit "//================== client stub===================\n" ++
        lit "// " ++ upperFirstLatter service.GetName ++ lit " is a client wrapped XClient.\n\t\t" ++
        lit "type " ++ upperFirstLatter service.GetName ++ lit "Client struct \x7b\n\t\t\t" ++
        lit "xclient client.XClient\n\t\t\t" ++
        lit "fx " ++ upperFirstLatter service.GetName ++ lit "Methods\n\t\t" ++
        lit "\x7d\n\n\t\t" ++
        lit "type " ++ upperFirstLatter service.GetName ++ lit "Methods struct \x7b" ++
        lit "\x7d\n\n\t\t" ++
        lit "// Make" ++ upperFirstLatter service.GetName ++ lit "Client wraps a XClient as " ++ upperFirstLatter service.GetName ++ lit "Client.\n\t\t" ++
        lit "// You can pass a shared XClient object created by anywhere.\n\t\t" ++
        lit "func Make" ++ upperFirstLatter service.GetName ++ lit "Client(xclient client.XClient) *" ++ upperFirstLatter service.GetName ++ lit "Client \x7b\n\t\t\t" ++
        lit "return &" ++ upperFirstLatter service.GetName ++ lit "Client\x7b\n\t\t\t\t" ++
        lit "xclient: xclient,\n\t\t\t\t" ++
        lit "fx: UserMethods \x7b" ++
        lit "\n\t\t\t\t" ++
        lit "\x7d,\n\t\t\t" ++
        lit "\x7d\n\t\t" ++
        lit "\x7d\n\t" ++ lit "\n" := by
  have hres : Resolvable g service.Method := by
    intro method hm
    rw [h] at hm
    cases hm
  refine ⟨_, generateService_eq file service index g hres, ?_⟩
  simp only [Generator.Buffer, textOf_append, textOf_serviceCalls, h, registerText,
    clientStubText, List.map_nil, List.flatten_nil, List.append_nil, List.nil_append,
    List.append_assoc]
  rfl

set_option maxRecDepth 100000 in
theorem generateService_no_methods_witness :
    bareGreeter.Method = [] ∧
    ∃ g', generateService greeterFile bareGreeter 0 sampleHost = some g' ∧
      g'.Buffer = sampleHost.Buffer ++
        lit "// This following code was generated by rpcx\n" ++
        lit "// Gernerated from " ++ greeterFile.GetName ++ lit "\n" ++
        lit "\n" ++
        lit "//================== server skeleton===================\n" ++
        lit "type " ++ upperFirstLatter bareGreeter.GetName ++ lit " interface \x7b\n" ++
        lit "\x7d\n\n\t\t" ++
        lit "// RegisterFor" ++ upperFirstLatter bareGreeter.GetName ++ lit " register the '" ++ upperFirstLatter bareGreeter.GetName ++ lit "' service to a server.\n\t\t" ++
        lit "// And will check all methods of '" ++ upperFirstLatter bareGreeter.GetName ++ lit "' which must be implemented.\n\t\t" ++
        lit "func RegisterFor" ++ upperFirstLatter bareGreeter.GetName ++ lit "(s *server.Server, meta string) error \x7b\n\t\t\t" ++
        lit "impl := new(" ++ upperFirstLatter bareGreeter.GetName ++ lit "Impl)" ++
        lit "\n\t\t\t" ++
        lit "return s.RegisterName(\"" ++ upperFirstLatter bareGreeter.GetName ++ lit "\", impl, meta)\n\t\t" ++
        lit "\x7d\n\t" ++ lit "\n" ++
        lit "\n" ++
        lit "\n" ++
        lit "//================== client stub===================\n" ++
        lit "// " ++ upperFirstLatter bareGreeter.GetName ++ lit " is a client wrapped XClient.\n\t\t" ++
        lit "type " ++ upperFirstLatter bareGreeter.GetName ++ lit "Client struct \x7b\n\t\t\t" ++
        lit "xclient client.XClient\n\t\t\t" ++
        lit "fx " ++ upperFirstLatter bareGreeter.GetName ++ lit "Methods\n\t\t" ++
        lit "\x7d\n\n\t\t" ++
        lit "type " ++ upperFirstLatter bareGreeter.GetName ++ lit "Methods struct \x7b" ++
        lit "\x7d\n\n\t\t" ++
        lit "// Make" ++ upperFirstLatter bareGreeter.GetName ++ lit "Client wraps a XClient as " ++ upperFirstLatter bareGreeter.GetName ++ lit "Client.\n\t\t" ++
        lit "// You can pass a shared XClient object created by anywhere.\n\t\t" ++
        lit "func Make" ++ upperFirstLatter bareGreeter.GetName ++ lit "Client(xclient client.XClient) *" ++ upperFirstLatter bareGreeter.GetName ++ lit "Client \x7b\n\t\t\t" ++
        lit "return &" ++ upperFirstLatter bareGreeter.GetName ++ lit "Client\x7b\n\t\t\t\t" ++
        lit "xclient: xclient,\n\t\t\t\t" ++
        lit "fx: UserMethods \x7b" ++
        lit "\n\t\t\t\t" ++
        lit "\x7d,\n\t\t\t" ++
        lit "\x7d\n\t\t" ++
        lit "\x7d\n\t" ++ lit "\n" :=
  ⟨rfl, generateService_no_methods greeterFile bareGreeter 0 sampleHost rfl⟩

set_option maxRecDepth 100000 in
/-- C8: for a service named `S` with methods `[m1, ..., mn]` (whose types resolve),
`generateService` completes and the text it appends contains the interface line
`type <UpperFirst(S)> interface {` and, further on, the registration function: it is named
`RegisterFor<UpperFirst(S)>`, instantiates `new(<UpperFirst(S)>Impl)`, then holds exactly the
reference lines `_ = impl.<UpperFirst(mi)>`, one for each method in order and nothing else,
and returns `s.RegisterName` called with the string literal `"<UpperFirst(S)>"`, `impl` and
`meta`; the literal is the identifier used for the interface. -/
theorem generateService_registration (file : FileDescriptor) (service : ServiceDescriptorProto)
    (index : Nat) (g : Generator) (h : Resolvable g service.Method) :
    ∃ g' pre mid post, generateService file service index g = some g' ∧
      g'.Buffer = g.Buffer ++ pre ++
        lit "type " ++ upperFirstLatter service.GetName ++ lit " interface \x7b\n" ++ mid ++
        lit "func RegisterFor" ++ upperFirstLatter service.GetName ++ lit "(s *server.Server, meta string) error \x7b\n\t\t\t" ++
        lit "impl := new(" ++ upperFirstLatter service.GetName ++ lit "Impl)" ++
        (service.Method.map (fun method =>
          lit "\n_ = impl." ++ upperFirstLatter method.GetName)).flatten ++
        lit "\n\t\t\t" ++
        lit "return s.RegisterName(\"" ++ upperFirstLatter service.GetName ++ lit "\", impl, meta)\n\t\t" ++
        lit "\x7d" ++ post := by
  refine ⟨_, ?_, ?_, ?_, generateService_eq file service index g h, ?_⟩
  · exact lit "// This following code was generated by rpcx\n" ++
      lit "// Gernerated from " ++ file.GetName ++ lit "\n" ++ lit "\n" ++
      lit "//================== server skeleton===================\n"
  · exact (service.Method.map (fun method => textOf (serverCalls g method))).flatten ++
      lit "\x7d\n\n\t\t// RegisterFor" ++ upperFirstLatter service.GetName ++
      lit " register the '" ++ upperFirstLatter service.GetName ++
      lit "' service to a server.\n\t\t// And will check all methods of '" ++
      upperFirstLatter service.GetName ++ lit "' which must be implemented.\n\t\t"
  · exact lit "\n\t" ++ lit "\n" ++ lit "\n" ++ lit "\n" ++
      lit "//================== client stub===================" ++ lit "\n" ++
      clientStubText (upperFirstLatter service.GetName) (service.Method.map fieldText).flatten
        (service.Method.map entryText).flatten ++ lit "\n" ++
      (service.Method.map (fun method => textOf (clientCalls g service method))).flatten
  · simp only [Generator.Buffer, textOf_append, textOf_serviceCalls, registerText,
      List.append_assoc]
    rfl

set_option maxRecDepth 100000 in
theorem generateService_registration_witness :
    Resolvable sampleHost farewell.Method ∧
    ∃ g' pre mid post, generateService twoServicesFile farewell 1 sampleHost = some g' ∧
      g'.Buffer = sampleHost.Buffer ++ pre ++
        lit "type " ++ upperFirstLatter farewell.GetName ++ lit " interface \x7b\n" ++ mid ++
        lit "func RegisterFor" ++ upperFirstLatter farewell.GetName ++ lit "(s *server.Server, meta string) error \x7b\n\t\t\t" ++
        lit "impl := new(" ++ upperFirstLatter farewell.GetName ++ lit "Impl)" ++
        (farewell.Method.map (fun method =>
          lit "\n_ = impl." ++ upperFirstLatter method.GetName)).flatten ++
        lit "\n\t\t\t" ++
        lit "return s.RegisterName(\"" ++ upperFirstLatter farewell.GetName ++ lit "\", impl, meta)\n\t\t" ++
        lit "\x7d" ++ post :=
  ⟨by decide, generateService_registration twoServicesFile farewell 1 sampleHost (by decide)⟩

set_option maxRecDepth 100000 in
/-- C2: for a service (whose types resolve) and a method named `m` in it, the server
interface line appended by `generateServerCode` declares a method named
`upperFirstLatter(m)`; the method-name table initialiser appended by `generateService` holds,
among the entries of the methods in declared order, the entry `upperFirstLatter(m): "m",`
whose string value is the original name `m` byte for byte; and that entry determines `m`: no
other name yields the same entry. -/
theorem method_name_roundtrip (file : FileDescriptor) (service : ServiceDescriptorProto)
    (index : Nat) (g : Generator) (method : MethodDescriptorProto)
    (h : Resolvable g service.Method) (hm : method ∈ service.Method) :
    (∃ g1, generateServerCode service method g = some g1 ∧
      g1.Buffer = g.Buffer ++
        lit "// " ++ upperFirstLatter method.GetName ++
        lit " is server rpc method as defined\n\t\t" ++
        upperFirstLatter method.GetName ++ lit "(ctx context.Context, args *" ++
        printedName g method.GetInputType ++ lit ", reply *" ++
        printedName g method.GetOutputType ++ lit ") error\n\t" ++ lit "\n") ∧
    (∃ g2 pre post earlier later, generateService file service index g = some g2 ∧
      service.Method = earlier ++ method :: later ∧
      g2.Buffer = g.Buffer ++ pre ++
        lit "fx: UserMethods \x7b" ++
        (earlier.map (fun other =>
          lit "\n" ++ upperFirstLatter other.GetName ++ lit ": \"" ++ other.GetName ++
            lit "\",")).flatten ++
        lit "\n" ++ upperFirstLatter method.GetName ++ lit ": \"" ++ method.GetName ++
        lit "\"," ++
        (later.map (fun other =>
          lit "\n" ++ upperFirstLatter other.GetName ++ lit ": \"" ++ other.GetName ++
            lit "\",")).flatten ++
        lit "\n\t\t\t\t" ++ lit "\x7d," ++ post) ∧
    (∀ name : GoString,
      lit "\n" ++ upperFirstLatter name ++ lit ": \"" ++ name ++ lit "\"," =
        lit "\n" ++ upperFirstLatter method.GetName ++ lit ": \"" ++ method.GetName ++
          lit "\"," →
      name = method.GetName) := by
  refine ⟨⟨_, generateServerCode_eq service method g (h method hm).1 (h method hm).2, ?_⟩,
    ?_, fun name hname => entry_injective name method.GetName hname⟩
  · simp only [Generator.Buffer, textOf_append, textOf_serverCalls, serverCodeText,
      List.append_assoc]
  · obtain ⟨earlier, later, hsplit⟩ := List.append_of_mem hm
    refine ⟨_, ?_, ?_, earlier, later, generateService_eq file service index g h, hsplit, ?_⟩
    · exact lit "// This following code was generated by rpcx" ++ lit "\n" ++
        (lit "// Gernerated from " ++ file.GetName) ++ lit "\n" ++ lit "\n" ++
        lit "//================== server skeleton===================" ++ lit "\n" ++
        (lit "type " ++ upperFirstLatter service.GetName ++ lit " interface \x7b") ++
        lit "\n" ++
        (service.Method.map (fun method => textOf (serverCalls g method))).flatten ++
        registerText (upperFirstLatter service.GetName)
          (service.Method.map implRefText).flatten ++ lit "\n" ++ lit "\n" ++ lit "\n" ++
        lit "//================== client stub===================" ++ lit "\n" ++
        lit "// " ++ upperFirstLatter service.GetName ++
        lit " is a client wrapped XClient.\n\t\ttype " ++ upperFirstLatter service.GetName ++
        lit "Client struct \x7b\n\t\t\txclient client.XClient\n\t\t\tfx " ++
        upperFirstLatter service.GetName ++ lit "Methods\n\t\t\x7d\n\n\t\ttype " ++
        upperFirstLatter service.GetName ++ lit "Methods struct \x7b" ++
        (service.Method.map fieldText).flatten ++ lit "\x7d\n\n\t\t// Make" ++
        upperFirstLatter service.GetName ++ lit "Client wraps a XClient as " ++
        upperFirstLatter service.GetName ++
        lit "Client.\n\t\t// You can pass a shared XClient object created by anywhere.\n\t\tfunc Make" ++
        upperFirstLatter service.GetName ++ lit "Client(xclient client.XClient) *" ++
        upperFirstLatter service.GetName ++ lit "Client \x7b\n\t\t\treturn &" ++
        upperFirstLatter service.GetName ++ lit "Client\x7b\n\t\t\t\txclient: xclient,\n\t\t\t\t"
    · exact lit "\n\t\t\t\x7d\n\t\t\x7d\n\t" ++ lit "\n" ++
        (service.Method.map (fun method => textOf (clientCalls g service method))).flatten
    · have hentries : (service.Method.map entryText).flatten =
          (earlier.map entryText).flatten ++ entryText method ++
            (later.map entryText).flatten := by
        rw [hsplit]
        simp [List.append_assoc]
      have hfun : (fun other : MethodDescriptorProto =>
          lit "\n" ++ upperFirstLatter other.GetName ++ lit ": \"" ++ other.GetName ++
            lit "\",") = entryText := rfl
      rw [hfun]
      simp only [Generator.Buffer, textOf_append, textOf_serviceCalls, clientStubText,
        hentries, List.append_assoc]
      simp only [entryText, List.append_assoc]
      rfl

set_option maxRecDepth 100000 in
theorem method_name_roundtrip_witness :
    (Resolvable sampleHost farewell.Method ∧ sayHello ∈ farewell.Method) ∧
    ((∃ g1, generateServerCode farewell sayHello sampleHost = some g1 ∧
      g1.Buffer = sampleHost.Buffer ++
        lit "// " ++ upperFirstLatter sayHello.GetName ++
        lit " is server rpc method as defined\n\t\t" ++
        upperFirstLatter sayHello.GetName ++ lit "(ctx context.Context, args *" ++
        printedName sampleHost sayHello.GetInputType ++ lit ", reply *" ++
        printedName sampleHost sayHello.GetOutputType ++ lit ") error\n\t" ++ lit "\n") ∧
    (∃ g2 pre post earlier later, generateService twoServicesFile farewell 1 sampleHost = some g2 ∧
      farewell.Method = earlier ++ sayHello :: later ∧
      g2.Buffer = sampleHost.Buffer ++ pre ++
        lit "fx: UserMethods \x7b" ++
        (earlier.map (fun other =>
          lit "\n" ++ upperFirstLatter other.GetName ++ lit ": \"" ++ other.GetName ++
            lit "\",")).flatten ++
        lit "\n" ++ upperFirstLatter sayHello.GetName ++ lit ": \"" ++ sayHello.GetName ++
        lit "\"," ++
        (later.map (fun other =>
          lit "\n" ++ upperFirstLatter other.GetName ++ lit ": \"" ++ other.GetName ++
            lit "\",")).flatten ++
        lit "\n\t\t\t\t" ++ lit "\x7d," ++ post) ∧
    (∀ name : GoString,
      lit "\n" ++ upperFirstLatter name ++ lit ": \"" ++ name ++ lit "\"," =
        lit "\n" ++ upperFirstLatter sayHello.GetName ++ lit ": \"" ++ sayHello.GetName ++
          lit "\"," →
      name = sayHello.GetName)) :=
  ⟨⟨by decide, by decide⟩,
    method_name_roundtrip twoServicesFile farewell 1 sampleHost sayHello (by decide)
      (by decide)⟩

/-- C5: for a file with services `[s1, ..., sk]`, `k ≥ 1` (whose types resolve), there are
texts `t1, ..., tk`, where `ti` is the text `generateService` appends for `si` (from any state
of the host and at any index), such that `Generate` completes and the text it appends is
`t1 ++ ... ++ tk`: the services' texts in declaration order, with nothing before, between or
after them. -/
theorem Generate_text (file : FileDescriptor) (g : Generator)
    (hne : file.FileDescriptorProto.Service ≠ [])
    (h : ∀ service ∈ file.FileDescriptorProto.Service, Resolvable g service.Method) :
    ∃ texts : List GoString,
      List.Forall₂
        (fun service text => ∀ (index : Nat) (g0 : Generator),
          g0.typeNameToObject = g.typeNameToObject →
          ∃ g1, generateService file service index g0 = some g1 ∧
            g1.Buffer = g0.Buffer ++ text)
        file.FileDescriptorProto.Service texts ∧
      ∃ g', Generate file g = some g' ∧ g'.Buffer = g.Buffer ++ texts.flatten := by
  refine ⟨file.FileDescriptorProto.Service.map (fun service =>
    textOf (serviceCalls g file service)), ?_, _, Generate_eq file g hne h, ?_⟩
  · rw [List.forall₂_map_right_iff, List.forall₂_same]
    intro service hs index g0 hg0
    have hres : Resolvable g0 service.Method := by
      intro method hmem
      rw [hg0]
      exact h service hs method hmem
    refine ⟨_, generateService_eq file service index g0 hres, ?_⟩
    simp only [Generator.Buffer, textOf_append, serviceCalls_congr g g0 file service hg0]
  · simp only [Generator.Buffer, textOf_append, textOf_flatMap, textOf_AddImport, textOf_nil,
      List.append_nil]

set_option maxRecDepth 100000 in
theorem Generate_text_witness :
    (twoServicesFile.FileDescriptorProto.Service ≠ [] ∧
      ∀ service ∈ twoServicesFile.FileDescriptorProto.Service,
        Resolvable sampleHost service.Method) ∧
    ∃ texts : List GoString,
      List.Forall₂
        (fun service text => ∀ (index : Nat) (g0 : Generator),
          g0.typeNameToObject = sampleHost.typeNameToObject →
          ∃ g1, generateService twoServicesFile service index g0 = some g1 ∧
            g1.Buffer = g0.Buffer ++ text)
        twoServicesFile.FileDescriptorProto.Service texts ∧
      ∃ g', Generate twoServicesFile sampleHost = some g' ∧ g'.Buffer = sampleHost.Buffer ++ texts.flatten :=
  ⟨⟨by decide, by decide⟩, Generate_text twoServicesFile sampleHost (by decide) (by decide)⟩

/-- C6: for a file with at least one service (whose types resolve), `Generate` completes and
declares exactly four imports with the host, whatever the number of services:
`"github.com/smallnest/rpcx/v5/server"`, `"github.com/smallnest/rpcx/v5/client"`,
`"github.com/smallnest/rpcx/v5/protocol"` and `"context"`, in that order, each once. They are
the first four calls the host receives: no call after them declares an import, and all the
text `Generate` appends comes from the calls after them. -/
theorem Generate_imports (file : FileDescriptor) (g : Generator)
    (hne : file.FileDescriptorProto.Service ≠ [])
    (h : ∀ service ∈ file.FileDescriptorProto.Service, Resolvable g service.Method) :
    ∃ g' rest, Generate file g = some g' ∧
      g'.calls = g.calls ++
        [Call.AddImport (lit "github.com/smallnest/rpcx/v5/server"),
          Call.AddImport (lit "github.com/smallnest/rpcx/v5/client"),
          Call.AddImport (lit "github.com/smallnest/rpcx/v5/protocol"),
          Call.AddImport (lit "context")] ++ rest ∧
      (∀ c ∈ rest, c.import? = none) ∧
      g'.addedImports = g.addedImports ++
        [lit "github.com/smallnest/rpcx/v5/server", lit "github.com/smallnest/rpcx/v5/client",
          lit "github.com/smallnest/rpcx/v5/protocol", lit "context"] ∧
      g'.Buffer = g.Buffer ++ textOf rest := by
  have hrest : ∀ c ∈ file.FileDescriptorProto.Service.flatMap (serviceCalls g file),
      c.import? = none := by
    intro c hc
    obtain ⟨service, -, hcs⟩ := List.mem_flatMap.mp hc
    exact import?_serviceCalls g file service c hcs
  refine ⟨_, _, Generate_eq file g hne h, rfl, hrest, ?_, ?_⟩
  · simp only [Generator.addedImports, List.filterMap_append,
      filterMap_import?_eq_nil _ hrest, List.append_nil]
    rfl
  · simp only [Generator.Buffer, textOf_append, textOf_AddImport, textOf_nil, List.append_nil]

set_option maxRecDepth 100000 in
theorem Generate_imports_witness :
    (twoServicesFile.FileDescriptorProto.Service ≠ [] ∧
      ∀ service ∈ twoServicesFile.FileDescriptorProto.Service,
        Resolvable sampleHost service.Method) ∧
    ∃ g' rest, Generate twoServicesFile sampleHost = some g' ∧
      g'.calls = sampleHost.calls ++
        [Call.AddImport (lit "github.com/smallnest/rpcx/v5/server"),
          Call.AddImport (lit "github.com/smallnest/rpcx/v5/client"),
          Call.AddImport (lit "github.com/smallnest/rpcx/v5/protocol"),
          Call.AddImport (lit "context")] ++ rest ∧
      (∀ c ∈ rest, c.import? = none) ∧
      g'.addedImports = sampleHost.addedImports ++
        [lit "github.com/smallnest/rpcx/v5/server", lit "github.com/smallnest/rpcx/v5/client",
          lit "github.com/smallnest/rpcx/v5/protocol", lit "context"] ∧
      g'.Buffer = sampleHost.Buffer ++ textOf rest :=
  ⟨⟨by decide, by decide⟩,
    Generate_imports twoServicesFile sampleHost (by decide) (by decide)⟩

set_option maxRecDepth 100000 in
/-- C1 (what the code does at the service `Greeter`): `generateService` completes; the text
it appends declares the method-name table type `GreeterMethods` and gives the `fx` field of
`GreeterClient` that type, yet the constructor `MakeGreeterClient` initialises `fx` with a
composite literal of type `UserMethods`: `fx: GreeterMethods {` occurs nowhere in the text,
and no type `UserMethods` is declared in it. -/
theorem generateService_Greeter_constructor :
    ∃ g', generateService greeterFile greeter 0 sampleHost = some g' ∧
      lit "type GreeterMethods struct \x7b" <:+: g'.Buffer ∧
      lit "type GreeterClient struct \x7b\n\t\t\txclient client.XClient\n\t\t\tfx GreeterMethods\n" <:+:
        g'.Buffer ∧
      lit "return &GreeterClient\x7b\n\t\t\t\txclient: xclient,\n\t\t\t\tfx: UserMethods \x7b" <:+:
        g'.Buffer ∧
      ¬ lit "fx: GreeterMethods \x7b" <:+: g'.Buffer ∧
      ¬ lit "type UserMethods" <:+: g'.Buffer := by
  refine ⟨_, generateService_eq greeterFile greeter 0 sampleHost (by decide), ?_⟩
  simp only [← occursIn_iff, Bool.not_eq_true]
  decide

/-! ## The casing helper -/

set_option maxRecDepth 100000 in
theorem toUpperOfByte_ascii (b : Byte) (hb : b.val < 128) :
    toUpperOfByte b = [asciiToUpper b] := by
  revert b
  decide

set_option maxRecDepth 100000 in
theorem asciiToUpper_idem (b : Byte) : asciiToUpper (asciiToUpper b) = asciiToUpper b := by
  revert b
  decide

set_option maxRecDepth 100000 in
theorem asciiToUpper_lt (b : Byte) (hb : b.val < 128) : (asciiToUpper b).val < 128 := by
  revert b
  decide

theorem upperFirstLatter_ascii_cons (b : Byte) (rest : GoString) (hb : b.val < 128) :
    upperFirstLatter (b :: rest) = asciiToUpper b :: rest := by
  rw [upperFirstLatter_cons, toUpperOfByte_ascii b hb]
  rfl

/-- The casing helper on a name whose first byte `b` is ASCII, with remaining bytes `rest`:
it gives the name with its first character upper-cased and the rest unchanged
(`upperFirstCharacter`); when `b` is an ASCII lowercase letter the result is its uppercase
form (`b - 32`) followed by `rest`, and when `b` is any other ASCII byte the result is the
name itself. -/
theorem upperFirstLatter_ascii (b : Byte) (rest : GoString) (hb : b.val < 128) :
    upperFirstCharacter (b :: rest) = some (upperFirstLatter (b :: rest)) ∧
      upperFirstLatter (b :: rest) = asciiToUpper b :: rest ∧
      (97 ≤ b.val ∧ b.val ≤ 122 → upperFirstLatter (b :: rest) = byte (b.val - 32) :: rest) ∧
      (¬ (97 ≤ b.val ∧ b.val ≤ 122) → upperFirstLatter (b :: rest) = b :: rest) := by
  have h := upperFirstLatter_ascii_cons b rest hb
  refine ⟨?_, h, fun hl => ?_, fun hl => ?_⟩
  · have hlt : b.val < 256 := b.isLt
    simp [upperFirstCharacter, decodeFirstRune, hb, hlt, upperFirstLatter_cons, toUpperOfByte]
  · rw [h, asciiToUpper, if_pos hl]
  · rw [h, asciiToUpper, if_neg hl]

theorem upperFirstLatter_ascii_witness :
    (byte 103).val < 128 ∧
      (upperFirstCharacter (byte 103 :: lit "etUser") =
          some (upperFirstLatter (byte 103 :: lit "etUser")) ∧
        upperFirstLatter (byte 103 :: lit "etUser") = asciiToUpper (byte 103) :: lit "etUser" ∧
        (97 ≤ (byte 103).val ∧ (byte 103).val ≤ 122 →
          upperFirstLatter (byte 103 :: lit "etUser") =
            byte ((byte 103).val - 32) :: lit "etUser") ∧
        (¬ (97 ≤ (byte 103).val ∧ (byte 103).val ≤ 122) →
          upperFirstLatter (byte 103 :: lit "etUser") = byte 103 :: lit "etUser")) :=
  ⟨by decide, upperFirstLatter_ascii (byte 103) (lit "etUser") (by decide)⟩

/-- C16: `upperFirstLatter` is idempotent on names whose first byte is ASCII: applying it
twice gives the same name as applying it once. -/
theorem upperFirstLatter_idempotent (b : Byte) (rest : GoString) (hb : b.val < 128) :
    upperFirstLatter (upperFirstLatter (b :: rest)) = upperFirstLatter (b :: rest) := by
  rw [upperFirstLatter_ascii_cons b rest hb,
    upperFirstLatter_ascii_cons _ rest (asciiToUpper_lt b hb), asciiToUpper_idem]

theorem upperFirstLatter_idempotent_witness :
    (byte 103).val < 128 ∧
      upperFirstLatter (upperFirstLatter (byte 103 :: lit "etUser")) =
        upperFirstLatter (byte 103 :: lit "etUser") :=
  ⟨by decide, upperFirstLatter_idempotent (byte 103) (lit "etUser") (by decide)⟩

/-- C18: the text and the host-state changes of `generateService` do not depend on the index
argument: for every file, service, host state and pair of indices, the two runs give the same
result. -/
theorem generateService_index_irrelevant (file : FileDescriptor)
    (service : ServiceDescriptorProto) (i j : Nat) (g : Generator) :
    generateService file service i g = generateService file service j g ∧
      (generateService file service i g).map Generator.Buffer =
        (generateService file service j g).map Generator.Buffer ∧
      (generateService file service i g).map Generator.calls =
        (generateService file service j g).map Generator.calls :=
  ⟨rfl, rfl, rfl⟩

theorem upperFirstLatterChecked_eq (s : GoString) :
    upperFirstLatterChecked s = some (upperFirstLatter s) := by
  match s with
  | [] => rfl
  | [b] => rfl
  | b :: c :: rest => simp [upperFirstLatterChecked, upperFirstLatter]

theorem drop_one_suffix_upperFirstLatter (s : GoString) : s.drop 1 <:+ upperFirstLatter s := by
  cases s with
  | nil => exact List.suffix_refl _
  | cons b rest =>
    rw [upperFirstLatter_cons]
    exact List.suffix_append _ _

set_option maxRecDepth 100000 in
/-- C15: on every string, whatever its bytes, `upperFirstLatter` returns without an index or
a slice bound out of range, and its result ends with `s[1:]` unchanged; when the first byte
is ASCII the result has as many bytes as `s`. When the first byte is `0x80` or above this
fails: for `s = "é"` (bytes `C3 A9`) the result is the three bytes `C3 83 A9`, longer than `s`
and different from `"É"`, which is `s` with its first character upper-cased. -/
theorem upperFirstLatter_any_bytes :
    (∀ s : GoString, upperFirstLatterChecked s = some (upperFirstLatter s)) ∧
    (∀ s : GoString, s.drop 1 <:+ upperFirstLatter s) ∧
    (∀ (b : Byte) (rest : GoString), b.val < 128 →
      (upperFirstLatter (b :: rest)).length = (b :: rest).length) ∧
    (lit "\u00e9" = [byte 0xC3, byte 0xA9] ∧
      upperFirstLatter (lit "\u00e9") = [byte 0xC3, byte 0x83, byte 0xA9] ∧
      (lit "\u00e9").length < (upperFirstLatter (lit "\u00e9")).length ∧
      upperFirstCharacter (lit "\u00e9") = some (lit "\u00c9") ∧
      upperFirstLatter (lit "\u00e9") ≠ lit "\u00c9") := by
  refine ⟨upperFirstLatterChecked_eq, drop_one_suffix_upperFirstLatter, ?_, by decide⟩
  intro b rest hb
  rw [upperFirstLatter_ascii_cons b rest hb]
  rfl

theorem asciiToUpper_eq_iff (x y : Byte) (hx : x.val < 128) (hy : y.val < 128) :
    asciiToUpper x = asciiToUpper y ↔
      (x = y ∨ (65 ≤ x.val ∧ x.val ≤ 90 ∧ y.val = x.val + 32) ∨
        (65 ≤ y.val ∧ y.val ≤ 90 ∧ x.val = y.val + 32)) := by
  simp only [asciiToUpper, byte, Fin.ext_iff]
  split_ifs <;> simp <;> omega

set_option maxRecDepth 100000 in
/-- C17: for names `a = x :: xs` and `b = y :: ys` whose first bytes are ASCII,
`upperFirstLatter a = upperFirstLatter b` if and only if `a` and `b` have the same length,
agree on every byte after the first, and have first bytes that are equal or are the two cases
of one letter. Hence the distinct method names `get` and `Get` of one service yield the same
generated identifier `Get` (the method-name struct gets the field `Get` twice) while the table
entries keep the distinct wire names `"get"` and `"Get"`. -/
theorem upperFirstLatter_eq_iff (x y : Byte) (xs ys : GoString) (hx : x.val < 128)
    (hy : y.val < 128) :
    (upperFirstLatter (x :: xs) = upperFirstLatter (y :: ys) ↔
      (x :: xs).length = (y :: ys).length ∧ xs = ys ∧
        (x = y ∨ (65 ≤ x.val ∧ x.val ≤ 90 ∧ y.val = x.val + 32) ∨
          (65 ≤ y.val ∧ y.val ≤ 90 ∧ x.val = y.val + 32))) ∧
    (lit "get" ≠ lit "Get" ∧
      upperFirstLatter (lit "get") = lit "Get" ∧ upperFirstLatter (lit "Get") = lit "Get" ∧
      methodFields store = lit "\nGet string\nGet string" ∧
      methodEntries store = lit "\nGet: \"get\",\nGet: \"Get\",") := by
  refine ⟨?_, by decide⟩
  rw [upperFirstLatter_ascii_cons x xs hx, upperFirstLatter_ascii_cons y ys hy,
    List.cons.injEq, asciiToUpper_eq_iff x y hx hy]
  constructor
  · rintro ⟨h1, h2⟩
    exact ⟨by simp [h2], h2, h1⟩
  · rintro ⟨-, h2, h1⟩
    exact ⟨h1, h2⟩

/-! ## The greeter example, end to end -/

set_option maxRecDepth 100000 in
/-- C11: for a file with the single service `Greeter` having the single method `sayHello`
whose input type resolves to `HelloRequest` and output type to `HelloReply`, `Generate`
completes and appends exactly the text below: the server interface `type Greeter interface {`
holds one method signature, `SayHello(ctx context.Context, args *HelloRequest, reply
*HelloReply) error`, and nothing else before its closing brace, and the client has both
`func (c *GreeterClient) SayHello(ctx context.Context, args *HelloRequest) (reply
*HelloReply, err error)` and `func (c *GreeterClient) SayHelloGo(ctx context.Context, args
*HelloRequest, done chan *client.Call) (call *client.Call, err error)`. -/
theorem Generate_Greeter (file : FileDescriptor) (service : ServiceDescriptorProto)
    (method : MethodDescriptorProto) (g : Generator)
    (hfile : file.FileDescriptorProto.Service = [service])
    (hname : service.GetName = lit "Greeter") (hmethods : service.Method = [method])
    (hmethod : method.GetName = lit "sayHello")
    (hin : g.typeNameToObject method.GetInputType = some ⟨lit "HelloRequest"⟩)
    (hout : g.typeNameToObject method.GetOutputType = some ⟨lit "HelloReply"⟩) :
    ∃ g', Generate file g = some g' ∧
      g'.Buffer = g.Buffer ++
        lit "// This following code was generated by rpcx\n" ++
        lit "// Gernerated from " ++ file.GetName ++ lit "\n" ++
        lit "\n" ++
        lit "//================== server skeleton===================\n" ++
        lit "type Greeter interface \x7b\n" ++
        lit "// SayHello is server rpc method as defined\n\t\t" ++
        lit "SayHello(ctx context.Context, args *HelloRequest, reply *HelloReply) error\n\t" ++ lit "\n" ++
        lit "\x7d\n\n\t\t" ++
        lit "// RegisterForGreeter register the 'Greeter' service to a server.\n\t\t" ++
        lit "// And will check all methods of 'Greeter' which must be implemented.\n\t\t" ++
        lit "func RegisterForGreeter(s *server.Server, meta string) error \x7b\n\t\t\t" ++
        lit "impl := new(GreeterImpl)" ++
        lit "\n_ = impl.SayHello" ++
        lit "\n\t\t\t" ++
        lit "return s.RegisterName(\"Greeter\", impl, meta)\n\t\t" ++
        lit "\x7d\n\t" ++ lit "\n" ++
        lit "\n" ++
        lit "\n" ++
        lit "//================== client stub===================\n" ++
        lit "// Greeter is a client wrapped XClient.\n\t\t" ++
        lit "type GreeterClient struct \x7b\n\t\t\t" ++
        lit "xclient client.XClient\n\t\t\t" ++
        lit "fx GreeterMethods\n\t\t" ++
        lit "\x7d\n\n\t\t" ++
        lit "type GreeterMethods struct \x7b" ++
        lit "\nSayHello string" ++
        lit "\x7d\n\n\t\t" ++
        lit "// MakeGreeterClient wraps a XClient as GreeterClient.\n\t\t" ++
        lit "// You can pass a shared XClient object created by anywhere.\n\t\t" ++
        lit "func MakeGreeterClient(xclient client.XClient) *GreeterClient \x7b\n\t\t\t" ++
        lit "return &GreeterClient\x7b\n\t\t\t\t" ++
        lit "xclient: xclient,\n\t\t\t\t" ++
        lit "fx: UserMethods \x7b" ++
        lit "\nSayHello: \"sayHello\"," ++
        lit "\n\t\t\t\t" ++
        lit "\x7d,\n\t\t\t" ++
        lit "\x7d\n\t\t" ++
        lit "\x7d\n\t" ++ lit "\n" ++
        lit "// SayHello is client rpc method as defined\n\t\t" ++
        lit "func (c *GreeterClient) SayHello(ctx context.Context, args *HelloRequest) (reply *HelloReply, err error) \x7b\n\t\t\t" ++
        lit "reply = &HelloReply\x7b\x7d\n\t\t\t" ++
        lit "err = c.xclient.Call(ctx, \"sayHello\", args, reply)\n\t\t\t" ++
        lit "return reply, err\n\t\t\x7d\n\t\t\n\t\t" ++
        lit "// SayHelloGo is client rpc method as defined\n\t\t" ++
        lit "func (c *GreeterClient) SayHelloGo(ctx context.Context, args *HelloRequest, done chan *client.Call) (call *client.Call, err error) \x7b\n\t\t\t" ++
        lit "return c.xclient.Go(ctx, \"sayHello\", args, &HelloReply\x7b\x7d, done)\n\t\t\x7d\n\t" ++ lit "\n" := by
  have hres : ∀ s ∈ file.FileDescriptorProto.Service, Resolvable g s.Method := by
    intro s hs m hm
    rw [hfile, List.mem_singleton] at hs
    subst hs
    rw [hmethods, List.mem_singleton] at hm
    subst hm
    simp [hin, hout]
  have hne : file.FileDescriptorProto.Service ≠ [] := by simp [hfile]
  refine ⟨_, Generate_eq file g hne hres, ?_⟩
  simp only [Generator.Buffer, textOf_append, textOf_AddImport, textOf_nil, hfile,
    List.flatMap_cons, List.flatMap_nil, List.append_nil, List.nil_append,
    textOf_serviceCalls, hmethods, List.map_cons, List.map_nil, List.flatten_cons,
    List.flatten_nil, textOf_serverCalls, textOf_clientCalls, printedName_eq _ _ _ hin,
    printedName_eq _ _ _ hout, hname, hmethod, registerText, clientStubText, serverCodeText,
    clientCodeText, implRefText, fieldText, entryText, List.append_assoc]
  rfl

set_option maxRecDepth 100000 in
theorem Generate_Greeter_witness :
    (greeterFile.FileDescriptorProto.Service = [greeter] ∧ greeter.GetName = lit "Greeter" ∧
      greeter.Method = [sayHello] ∧ sayHello.GetName = lit "sayHello" ∧
      sampleHost.typeNameToObject sayHello.GetInputType = some ⟨lit "HelloRequest"⟩ ∧
      sampleHost.typeNameToObject sayHello.GetOutputType = some ⟨lit "HelloReply"⟩) ∧
    ∃ g', Generate greeterFile sampleHost = some g' ∧
      g'.Buffer = sampleHost.Buffer ++
        lit "// This following code was generated by rpcx\n" ++
        lit "// Gernerated from " ++ greeterFile.GetName ++ lit "\n" ++
        lit "\n" ++
        lit "//================== server skeleton===================\n" ++
        lit "type Greeter interface \x7b\n" ++
        lit "// SayHello is server rpc method as defined\n\t\t" ++
        lit "SayHello(ctx context.Context, args *HelloRequest, reply *HelloReply) error\n\t" ++ lit "\n" ++
        lit "\x7d\n\n\t\t" ++
        lit "// RegisterForGreeter register the 'Greeter' service to a server.\n\t\t" ++
        lit "// And will check all methods of 'Greeter' which must be implemented.\n\t\t" ++
        lit "func RegisterForGreeter(s *server.Server, meta string) error \x7b\n\t\t\t" ++
        lit "impl := new(GreeterImpl)" ++
        lit "\n_ = impl.SayHello" ++
        lit "\n\t\t\t" ++
        lit "return s.RegisterName(\"Greeter\", impl, meta)\n\t\t" ++
        lit "\x7d\n\t" ++ lit "\n" ++
        lit "\n" ++
        lit "\n" ++
        lit "//================== client stub===================\n" ++
        lit "// Greeter is a client wrapped XClient.\n\t\t" ++
        lit "type GreeterClient struct \x7b\n\t\t\t" ++
        lit "xclient client.XClient\n\t\t\t" ++
        lit "fx GreeterMethods\n\t\t" ++
        lit "\x7d\n\n\t\t" ++
        lit "type GreeterMethods struct \x7b" ++
        lit "\nSayHello string" ++
        lit "\x7d\n\n\t\t" ++
        lit "// MakeGreeterClient wraps a XClient as GreeterClient.\n\t\t" ++
        lit "// You can pass a shared XClient object created by anywhere.\n\t\t" ++
        lit "func MakeGreeterClient(xclient client.XClient) *GreeterClient \x7b\n\t\t\t" ++
        lit "return &GreeterClient\x7b\n\t\t\t\t" ++
        lit "xclient: xclient,\n\t\t\t\t" ++
        lit "fx: UserMethods \x7b" ++
        lit "\nSayHello: \"sayHello\"," ++
        lit "\n\t\t\t\t" ++
        lit "\x7d,\n\t\t\t" ++
        lit "\x7d\n\t\t" ++
        lit "\x7d\n\t" ++ lit "\n" ++
        lit "// SayHello is client rpc method as defined\n\t\t" ++
        lit "func (c *GreeterClient) SayHello(ctx context.Context, args *HelloRequest) (reply *HelloReply, err error) \x7b\n\t\t\t" ++
        lit "reply = &HelloReply\x7b\x7d\n\t\t\t" ++
        lit "err = c.xclient.Call(ctx, \"sayHello\", args, reply)\n\t\t\t" ++
        lit "return reply, err\n\t\t\x7d\n\t\t\n\t\t" ++
        lit "// SayHelloGo is client rpc method as defined\n\t\t" ++
        lit "func (c *GreeterClient) SayHelloGo(ctx context.Context, args *HelloRequest, done chan *client.Call) (call *client.Call, err error) \x7b\n\t\t\t" ++
        lit "return c.xclient.Go(ctx, \"sayHello\", args, &HelloReply\x7b\x7d, done)\n\t\t\x7d\n\t" ++ lit "\n" :=
  ⟨⟨rfl, rfl, rfl, rfl, by decide, by decide⟩,
    Generate_Greeter greeterFile greeter sayHello sampleHost rfl rfl rfl rfl (by decide)
      (by decide)⟩

/-! ## Type uses -/

theorem typeUse?_serviceCalls (g : Generator) (file : FileDescriptor)
    (service : ServiceDescriptorProto) :
    (serviceCalls g file service).filterMap Call.typeUse? =
      service.Method.flatMap (fun method => [method.GetInputType, method.GetOutputType]) ++
      service.Method.flatMap (fun method => [method.GetInputType, method.GetOutputType]) := by
  have hs : ∀ methods : List MethodDescriptorProto,
      (methods.flatMap (serverCalls g)).filterMap Call.typeUse? =
        methods.flatMap (fun method => [method.GetInputType, method.GetOutputType]) := by
    intro methods
    induction methods with
    | nil => rfl
    | cons m ms ih =>
      simp only [List.flatMap_cons, List.filterMap_append, ih]
      rfl
  have hc : ∀ methods : List MethodDescriptorProto,
      (methods.flatMap (clientCalls g service)).filterMap Call.typeUse? =
        methods.flatMap (fun method => [method.GetInputType, method.GetOutputType]) := by
    intro methods
    induction methods with
    | nil => rfl
    | cons m ms ih =>
      simp only [List.flatMap_cons, List.filterMap_append, ih]
      rfl
  simp [serviceCalls, List.filterMap_append, hs, hc, List.filterMap_cons, Call.typeUse?]

/-- C13: for every service (whose types resolve), after `generateService` has run, the input
type name and the output type name of every method are among the type names recorded with
the host through `RecordTypeUse`. The calls of the run are, in order, the ones listed: a
resolved type name is printed only by the `P` call of `generateServerCode` or
`generateClientCode` for a method, and each of these comes right after the two
`RecordTypeUse` calls for the input and the output type of that method; the other `P` calls
print no type name. -/
theorem generateService_records_types (file : FileDescriptor)
    (service : ServiceDescriptorProto) (index : Nat) (g : Generator)
    (h : Resolvable g service.Method) :
    ∃ g', generateService file service index g = some g' ∧
      (∀ method ∈ service.Method,
        method.GetInputType ∈ g'.usedTypes ∧ method.GetOutputType ∈ g'.usedTypes) ∧
      g'.calls = g.calls ++
        [Call.P [lit "// This following code was generated by rpcx"],
          Call.P [lit "// Gernerated from " ++ file.GetName],
          Call.P [],
          Call.P [lit "//================== server skeleton==================="],
          Call.P [lit "type " ++ upperFirstLatter service.GetName ++ lit " interface \x7b"]] ++
        service.Method.flatMap (fun method =>
          [Call.RecordTypeUse method.GetInputType, Call.RecordTypeUse method.GetOutputType,
            Call.P [serverCodeText (upperFirstLatter method.GetName)
              (printedName g method.GetInputType) (printedName g method.GetOutputType)]]) ++
        [Call.P [registerText (upperFirstLatter service.GetName)
            (service.Method.map implRefText).flatten],
          Call.P [],
          Call.P [],
          Call.P [lit "//================== client stub==================="],
          Call.P [clientStubText (upperFirstLatter service.GetName)
            (service.Method.map fieldText).flatten (service.Method.map entryText).flatten]] ++
        service.Method.flatMap (fun method =>
          [Call.RecordTypeUse method.GetInputType, Call.RecordTypeUse method.GetOutputType,
            Call.P [clientCodeText (upperFirstLatter service.GetName)
              (upperFirstLatter method.GetName) (printedName g method.GetInputType)
              (printedName g method.GetOutputType) method.GetName]]) ∧
      g'.usedTypes = g.usedTypes ++
        service.Method.flatMap (fun method => [method.GetInputType, method.GetOutputType]) ++
        service.Method.flatMap (fun method => [method.GetInputType, method.GetOutputType]) := by
  have hu : (⟨g.typeNameToObject, g.calls ++ serviceCalls g file service⟩ :
      Generator).usedTypes = g.usedTypes ++
        service.Method.flatMap (fun method => [method.GetInputType, method.GetOutputType]) ++
        service.Method.flatMap (fun method => [method.GetInputType, method.GetOutputType]) := by
    simp only [Generator.usedTypes, List.filterMap_append, typeUse?_serviceCalls,
      List.append_assoc]
  refine ⟨_, generateService_eq file service index g h, ?_, ?_, hu⟩
  · intro method hm
    rw [hu]
    simp only [List.mem_append, List.mem_flatMap]
    exact ⟨Or.inl (Or.inr ⟨method, hm, by simp⟩), Or.inl (Or.inr ⟨method, hm, by simp⟩)⟩
  · have hs : serverCalls g = fun method =>
        [Call.RecordTypeUse method.GetInputType, Call.RecordTypeUse method.GetOutputType,
          Call.P [serverCodeText (upperFirstLatter method.GetName)
            (printedName g method.GetInputType) (printedName g method.GetOutputType)]] := rfl
    have hc : clientCalls g service = fun method =>
        [Call.RecordTypeUse method.GetInputType, Call.RecordTypeUse method.GetOutputType,
          Call.P [clientCodeText (upperFirstLatter service.GetName)
            (upperFirstLatter method.GetName) (printedName g method.GetInputType)
            (printedName g method.GetOutputType) method.GetName]] := rfl
    simp only [serviceCalls, hs, hc, List.append_assoc]

set_option maxRecDepth 100000 in
theorem generateService_records_types_witness :
    Resolvable sampleHost farewell.Method ∧
    ∃ g', generateService twoServicesFile farewell 1 sampleHost = some g' ∧
      (∀ method ∈ farewell.Method,
        method.GetInputType ∈ g'.usedTypes ∧ method.GetOutputType ∈ g'.usedTypes) ∧
      g'.calls = sampleHost.calls ++
        [Call.P [lit "// This following code was generated by rpcx"],
          Call.P [lit "// Gernerated from " ++ twoServicesFile.GetName],
          Call.P [],
          Call.P [lit "//================== server skeleton==================="],
          Call.P [lit "type " ++ upperFirstLatter farewell.GetName ++ lit " interface \x7b"]] ++
        farewell.Method.flatMap (fun method =>
          [Call.RecordTypeUse method.GetInputType, Call.RecordTypeUse method.GetOutputType,
            Call.P [serverCodeText (upperFirstLatter method.GetName)
              (printedName sampleHost method.GetInputType) (printedName sampleHost method.GetOutputType)]]) ++
        [Call.P [registerText (upperFirstLatter farewell.GetName)
            (farewell.Method.map implRefText).flatten],
          Call.P [],
          Call.P [],
          Call.P [lit "//================== client stub==================="],
          Call.P [clientStubText (upperFirstLatter farewell.GetName)
            (farewell.Method.map fieldText).flatten (farewell.Method.map entryText).flatten]] ++
        farewell.Method.flatMap (fun method =>
          [Call.RecordTypeUse method.GetInputType, Call.RecordTypeUse method.GetOutputType,
            Call.P [clientCodeText (upperFirstLatter farewell.GetName)
              (upperFirstLatter method.GetName) (printedName sampleHost method.GetInputType)
              (printedName sampleHost method.GetOutputType) method.GetName]]) ∧
      g'.usedTypes = sampleHost.usedTypes ++
        farewell.Method.flatMap (fun method => [method.GetInputType, method.GetOutputType]) ++
        farewell.Method.flatMap (fun method => [method.GetInputType, method.GetOutputType]) :=
  ⟨by decide, generateService_records_types twoServicesFile farewell 1 sampleHost (by decide)⟩

/-! ## One name for every identifier of a service -/

set_option maxRecDepth 100000 in
/-- C14: for every service `S` (whose types resolve), every identifier that `generateService`
and `generateClientCode` derive from the service name is built from one string, `name =
upperFirstLatter(S)`: the interface `name`, `RegisterFor<name>`, `<name>Impl`, `<name>Client`
(as declared, as the constructor's return type and as the receiver `(c *<name>Client)` of
every client method), `<name>Methods` (as declared and as the type of the field `fx`) and
`Make<name>Client`. So the receiver type of every client method is the client struct declared
for `S`. -/
theorem generateService_one_name (file : FileDescriptor) (service : ServiceDescriptorProto)
    (index : Nat) (g : Generator) (h : Resolvable g service.Method) :
    ∃ g' name, name = upperFirstLatter service.GetName ∧
      generateService file service index g = some g' ∧
      g'.Buffer = g.Buffer ++
        lit "// This following code was generated by rpcx\n" ++
        lit "// Gernerated from " ++ file.GetName ++ lit "\n" ++
        lit "\n" ++
        lit "//================== server skeleton===================\n" ++
        lit "type " ++ name ++ lit " interface \x7b\n" ++
        (service.Method.map (fun method =>
          serverCodeText (upperFirstLatter method.GetName) (printedName g method.GetInputType)
            (printedName g method.GetOutputType) ++ lit "\n")).flatten ++
        lit "\x7d\n\n\t\t" ++
        lit "// RegisterFor" ++ name ++ lit " register the '" ++ name ++ lit "' service to a server.\n\t\t" ++
        lit "// And will check all methods of '" ++ name ++ lit "' which must be implemented.\n\t\t" ++
        lit "func RegisterFor" ++ name ++ lit "(s *server.Server, meta string) error \x7b\n\t\t\t" ++
        lit "impl := new(" ++ name ++ lit "Impl)" ++
        (service.Method.map implRefText).flatten ++
        lit "\n\t\t\t" ++
        lit "return s.RegisterName(\"" ++ name ++ lit "\", impl, meta)\n\t\t" ++
        lit "\x7d\n\t" ++ lit "\n" ++
        lit "\n" ++
        lit "\n" ++
        lit "//================== client stub===================\n" ++
        lit "// " ++ name ++ lit " is a client wrapped XClient.\n\t\t" ++
        lit "type " ++ name ++ lit "Client struct \x7b\n\t\t\t" ++
        lit "xclient client.XClient\n\t\t\t" ++
        lit "fx " ++ name ++ lit "Methods\n\t\t" ++
        lit "\x7d\n\n\t\t" ++
        lit "type " ++ name ++ lit "Methods struct \x7b" ++
        (service.Method.map fieldText).flatten ++
        lit "\x7d\n\n\t\t" ++
        lit "// Make" ++ name ++ lit "Client wraps a XClient as " ++ name ++ lit "Client.\n\t\t" ++
        lit "// You can pass a shared XClient object created by anywhere.\n\t\t" ++
        lit "func Make" ++ name ++ lit "Client(xclient client.XClient) *" ++ name ++ lit "Client \x7b\n\t\t\t" ++
        lit "return &" ++ name ++ lit "Client\x7b\n\t\t\t\t" ++
        lit "xclient: xclient,\n\t\t\t\t" ++
        lit "fx: UserMethods \x7b" ++
        (service.Method.map entryText).flatten ++
        lit "\n\t\t\t\t" ++
        lit "\x7d,\n\t\t\t" ++
        lit "\x7d\n\t\t" ++
        lit "\x7d\n\t" ++ lit "\n" ++
        (service.Method.map (fun method =>
          lit "// " ++ upperFirstLatter method.GetName ++ lit " is client rpc method as defined\n\t\t" ++
          lit "func (c *" ++ name ++ lit "Client) " ++ upperFirstLatter method.GetName ++ lit "(ctx context.Context, args *" ++ printedName g method.GetInputType ++
          lit ") (reply *" ++ printedName g method.GetOutputType ++ lit ", err error) \x7b\n\t\t\t" ++
          lit "reply = &" ++ printedName g method.GetOutputType ++ lit "\x7b\x7d\n\t\t\t" ++
          lit "err = c.xclient.Call(ctx, \"" ++ method.GetName ++ lit "\", args, reply)\n\t\t\t" ++
          lit "return reply, err\n\t\t\x7d\n\t\t\n\t\t" ++
          lit "// " ++ upperFirstLatter method.GetName ++ lit "Go is client rpc method as defined\n\t\t" ++
          lit "func (c *" ++ name ++ lit "Client) " ++ upperFirstLatter method.GetName ++ lit "Go(ctx context.Context, args *" ++ printedName g method.GetInputType ++
          lit ", done chan *client.Call) (call *client.Call, err error) \x7b\n\t\t\t" ++
          lit "return c.xclient.Go(ctx, \"" ++ method.GetName ++ lit "\", args, &" ++ printedName g method.GetOutputType ++
          lit "\x7b\x7d, done)\n\t\t\x7d\n\t" ++ lit "\n")).flatten := by
  refine ⟨_, _, rfl, generateService_eq file service index g h, ?_⟩
  simp only [Generator.Buffer, textOf_append, textOf_serviceCalls, textOf_serverCalls,
    textOf_clientCalls, registerText, clientStubText, clientCodeText, List.append_assoc]
  rfl

set_option maxRecDepth 100000 in
theorem generateService_one_name_witness :
    Resolvable sampleHost farewell.Method ∧
    ∃ g' name, name = upperFirstLatter farewell.GetName ∧
      generateService twoServicesFile farewell 1 sampleHost = some g' ∧
      g'.Buffer = sampleHost.Buffer ++
        lit "// This following code was generated by rpcx\n" ++
        lit "// Gernerated from " ++ twoServicesFile.GetName ++ lit "\n" ++
        lit "\n" ++
        lit "//================== server skeleton===================\n" ++
        lit "type " ++ name ++ lit " interface \x7b\n" ++
        (farewell.Method.map (fun method =>
          serverCodeText (upperFirstLatter method.GetName) (printedName sampleHost method.GetInputType)
            (printedName sampleHost method.GetOutputType) ++ lit "\n")).flatten ++
        lit "\x7d\n\n\t\t" ++
        lit "// RegisterFor" ++ name ++ lit " register the '" ++ name ++ lit "' service to a server.\n\t\t" ++
        lit "// And will check all methods of '" ++ name ++ lit "' which must be implemented.\n\t\t" ++
        lit "func RegisterFor" ++ name ++ lit "(s *server.Server, meta string) error \x7b\n\t\t\t" ++
        lit "impl := new(" ++ name ++ lit "Impl)" ++
        (farewell.Method.map implRefText).flatten ++
        lit "\n\t\t\t" ++
        lit "return s.RegisterName(\"" ++ name ++ lit "\", impl, meta)\n\t\t" ++
        lit "\x7d\n\t" ++ lit "\n" ++
        lit "\n" ++
        lit "\n" ++
        lit "//================== client stub===================\n" ++
        lit "// " ++ name ++ lit " is a client wrapped XClient.\n\t\t" ++
        lit "type " ++ name ++ lit "Client struct \x7b\n\t\t\t" ++
        lit "xclient client.XClient\n\t\t\t" ++
        lit "fx " ++ name ++ lit "Methods\n\t\t" ++
        lit "\x7d\n\n\t\t" ++
        lit "type " ++ name ++ lit "Methods struct \x7b" ++
        (farewell.Method.map fieldText).flatten ++
        lit "\x7d\n\n\t\t" ++
        lit "// Make" ++ name ++ lit "Client wraps a XClient as " ++ name ++ lit "Client.\n\t\t" ++
        lit "// You can pass a shared XClient object created by anywhere.\n\t\t" ++
        lit "func Make" ++ name ++ lit "Client(xclient client.XClient) *" ++ name ++ lit "Client \x7b\n\t\t\t" ++
        lit "return &" ++ name ++ lit "Client\x7b\n\t\t\t\t" ++
        lit "xclient: xclient,\n\t\t\t\t" ++
        lit "fx: UserMethods \x7b" ++
        (farewell.Method.map entryText).flatten ++
        lit "\n\t\t\t\t" ++
        lit "\x7d,\n\t\t\t" ++
        lit "\x7d\n\t\t" ++
        lit "\x7d\n\t" ++ lit "\n" ++
        (farewell.Method.map (fun method =>
          lit "// " ++ upperFirstLatter method.GetName ++ lit " is client rpc method as defined\n\t\t" ++
          lit "func (c *" ++ name ++ lit "Client) " ++ upperFirstLatter method.GetName ++ lit "(ctx context.Context, args *" ++ printedName sampleHost method.GetInputType ++
          lit ") (reply *" ++ printedName sampleHost method.GetOutputType ++ lit ", err error) \x7b\n\t\t\t" ++
          lit "reply = &" ++ printedName sampleHost method.GetOutputType ++ lit "\x7b\x7d\n\t\t\t" ++
          lit "err = c.xclient.Call(ctx, \"" ++ method.GetName ++ lit "\", args, reply)\n\t\t\t" ++
          lit "return reply, err\n\t\t\x7d\n\t\t\n\t\t" ++
          lit "// " ++ upperFirstLatter method.GetName ++ lit "Go is client rpc method as defined\n\t\t" ++
          lit "func (c *" ++ name ++ lit "Client) " ++ upperFirstLatter method.GetName ++ lit "Go(ctx context.Context, args *" ++ printedName sampleHost method.GetInputType ++
          lit ", done chan *client.Call) (call *client.Call, err error) \x7b\n\t\t\t" ++
          lit "return c.xclient.Go(ctx, \"" ++ method.GetName ++ lit "\", args, &" ++ printedName sampleHost method.GetOutputType ++
          lit "\x7b\x7d, done)\n\t\t\x7d\n\t" ++ lit "\n")).flatten :=
  ⟨by decide, generateService_one_name twoServicesFile farewell 1 sampleHost (by decide)⟩

theorem upperFirstLatter_eq_iff_witness :
    ((byte 103).val < 128 ∧ (byte 71).val < 128) ∧
    ((upperFirstLatter (byte 103 :: lit "et") = upperFirstLatter (byte 71 :: lit "et") ↔
      (byte 103 :: lit "et").length = (byte 71 :: lit "et").length ∧ lit "et" = lit "et" ∧
        (byte 103 = byte 71 ∨
          (65 ≤ (byte 103).val ∧ (byte 103).val ≤ 90 ∧ (byte 71).val = (byte 103).val + 32) ∨
          (65 ≤ (byte 71).val ∧ (byte 71).val ≤ 90 ∧ (byte 103).val = (byte 71).val + 32))) ∧
    (lit "get" ≠ lit "Get" ∧
      upperFirstLatter (lit "get") = lit "Get" ∧ upperFirstLatter (lit "Get") = lit "Get" ∧
      methodFields store = lit "\nGet string\nGet string" ∧
      methodEntries store = lit "\nGet: \"get\",\nGet: \"Get\",")) :=
  ⟨⟨by decide, by decide⟩,
    upperFirstLatter_eq_iff (byte 103) (byte 71) (lit "et") (lit "et") (by decide) (by decide)⟩

/-! ## The casing helper on a multi-byte first character -/

set_option maxRecDepth 100000 in
/-- C12 (what the code does at the name `écho`, bytes `C3 A9 63 68 6F`): the name with its
first character upper-cased and the rest unchanged is `Écho` (bytes `C3 89 63 68 6F`), but
`upperFirstLatter` upper-cases the first byte taken as a code point and returns the six bytes
`C3 83 A9 63 68 6F`: the rest `s[1:]` is kept, the first character is not upper-cased, and
the result is not `Écho`. -/
theorem upperFirstLatter_multibyte_first_character :
    lit "\u00e9cho" = byte 0xC3 :: byte 0xA9 :: lit "cho" ∧
      upperFirstCharacter (lit "\u00e9cho") = some (lit "\u00c9cho") ∧
      lit "\u00c9cho" = byte 0xC3 :: byte 0x89 :: lit "cho" ∧
      upperFirstLatterChecked (lit "\u00e9cho") =
        some (byte 0xC3 :: byte 0x83 :: byte 0xA9 :: lit "cho") ∧
      upperFirstLatter (lit "\u00e9cho") = byte 0xC3 :: byte 0x83 :: byte 0xA9 :: lit "cho" ∧
      upperFirstLatter (lit "\u00e9cho") ≠ lit "\u00c9cho" := by
  decide

end Rpcx
